import Mathlib

/-!
Millet inventory backend (`server.js`): order lifecycle and stock ledgers

A shallow embedding of the request handlers of `server.js` that move stock and
order status, as functions from a store (the SQL tables as lists of rows, in
insertion order) and the request fields to a response and the next store.

Conventions of the embedding.

* A numeric request field is `Option Int`: `none` is a field that is absent
  from the request body (JavaScript `undefined`), `some n` a JSON integer.
  A text field is `Option String` in the same way.
* `express.json()` hands a JSON number to the handler as an IEEE 754 double;
  `toDouble` is that conversion on integers. It keeps the sign and is the
  identity on the safe integers (magnitude below `2 ^ 53`), so the guards,
  which only test for zero and for the sign, are written on the integer
  itself. `placeOrder`, which writes the numbers of the request to a table,
  writes the converted values. The other handlers are written on the integers
  themselves, which is the handler's arithmetic on the safe integers.
* A `SELECT` that the handler destructures as `[[row]]`, or reads as
  `rows[0]`, is `List.find?`: the first matching row. An `UPDATE` rewrites
  every matching row, so it is a `List.map`. An `INSERT` appends a row.
* The handlers run their statements one after the other on a pooled
  connection with no transaction: when a later statement throws, the writes
  made by the earlier ones stay. The exceptions modelled are the `TypeError`
  raised by reading `.name` of a row that was not found and, in `placeOrder`,
  the `INSERT` that is refused because one of its numbers is an infinity.
* `incoming_orders.id` is an auto-increment key (the `INSERT` of
  `POST /api/order` gives no id) and `distributor_stock` has the unique key
  (distributor_id, product_id) that `ON DUPLICATE KEY UPDATE` refers to.
* Timestamps (`NOW()`, `created_at`) are left out.
-/

namespace Millet

/-! ## Data model -/

/-- Status of an `incoming_orders` row. The handlers only ever write the three
literals `'Pending'`, `'Shipped'` and `'Delivered'` to that column. -/
inductive Status where
  | Pending
  | Shipped
  | Delivered
  deriving DecidableEq, Repr

/-- Row of `products`. -/
structure Product where
  id : Int
  name : String
  sku : String
  deriving DecidableEq, Repr

/-- Row of `warehouses`. -/
structure Warehouse where
  id : Int
  name : String
  deriving DecidableEq, Repr

/-- Row of `distributors`. -/
structure Distributor where
  id : Int
  name : String
  email : String
  deriving DecidableEq, Repr

/-- Row of `warehouse_inventory`. -/
structure InventoryRow where
  warehouse_id : Int
  product_id : Int
  qty : Int
  deriving DecidableEq, Repr

/-- Row of `distributor_stock`. -/
structure StockRow where
  distributor_id : Int
  product_id : Int
  qty : Int
  deriving DecidableEq, Repr

/-- Row of `incoming_orders`. -/
structure Order where
  id : Int
  distributor_id : Int
  warehouse_id : Int
  product_id : Int
  qty : Int
  status : Status
  deriving DecidableEq, Repr

/-- Row of `order_status`, the table the admin status update works on. Its
status is the free text of the request. -/
structure OrderStatusRow where
  order_id : Int
  warehouse_id : Int
  distributor_name : String
  product_name : String
  quantity : Int
  status : String
  deriving DecidableEq, Repr

/-- Row of `order_status_history`. -/
structure HistoryRow where
  order_id : Int
  warehouse_id : Int
  distributor_name : String
  product_name : String
  quantity : Int
  status : String
  deriving DecidableEq, Repr

/-- Row of `sales`. -/
structure Sale where
  distributor_id : Int
  product_id : Int
  qty : Int
  deriving DecidableEq, Repr

/-- Row of `customer_purchases`. -/
structure Purchase where
  warehouse_name : String
  customer_name : String
  product_name : String
  quantity : Int
  deriving DecidableEq, Repr

/-- Row of `activity_logs`. -/
structure LogRow where
  source : String
  description : String
  deriving DecidableEq, Repr

/-- The database: every table the handlers below read or write.
`nextOrderId` is the auto-increment counter of `incoming_orders`. -/
structure Store where
  products : List Product
  warehouses : List Warehouse
  distributors : List Distributor
  warehouse_inventory : List InventoryRow
  distributor_stock : List StockRow
  incoming_orders : List Order
  nextOrderId : Int
  order_status : List OrderStatusRow
  order_status_history : List HistoryRow
  sales : List Sale
  customer_purchases : List Purchase
  activity_logs : List LogRow
  deriving DecidableEq, Repr

/-- What a handler answers. Each constructor is one `res.status(..).json(..)`
shape of `server.js`, named after the error kind of the specification:
`ok` is the 200 success body, `invalidInput` the 400 sent by the guard on the
request fields, `insufficientStock` the 400 "Insufficient stock" / "Not enough
stock", `notFound` a 404 for a row that was looked up and is absent,
`preconditionFailed` the 404 "Order not found or not in Shipped status" of
confirm-delivery, `serverError` the 500 sent by the `catch` block. -/
inductive Response where
  | ok
  | invalidInput
  | insufficientStock
  | notFound
  | preconditionFailed
  | serverError
  deriving DecidableEq, Repr

/-! ## JavaScript coercions used by the guards -/

/-- JavaScript `!x` on a numeric field: absent and `0` are falsy. -/
def falsy : Option Int → Bool
  | none => true
  | some n => n == 0

/-- JavaScript `!x` on a text field: absent and the empty string are falsy. -/
def falsyText : Option String → Bool
  | none => true
  | some t => t == ""

/-- JavaScript `isNaN(x)` on a numeric field: `undefined` converts to `NaN`. -/
def isNaN : Option Int → Bool
  | none => true
  | some _ => false

/-- JavaScript `x <= 0` on a numeric field: a comparison with `NaN` is false. -/
def leZero : Option Int → Bool
  | none => false
  | some n => decide (n ≤ 0)

/-- The number of low bits of `m` that do not fit a mantissa of 53 bits: the
least `k` with `m / 2 ^ k < 2 ^ 53`. The first argument bounds the search; `m`
itself is always enough. -/
def excessBits : Nat → Nat → Nat
  | 0, _ => 0
  | fuel + 1, m => if m < 2 ^ 53 then 0 else excessBits fuel (m / 2) + 1

/-- The first power of two that is too large for a double, `2 ^ 1024`. -/
def doubleLimit : Nat := (2 ^ 128) ^ 8

/-- The double nearest to the natural number `m`, ties going to the even
mantissa (53 significant bits), as a natural number; `none` when the result
reaches `2 ^ 1024`, too large for a double, which JavaScript reads as
`Infinity`. -/
def roundToDouble (m : Nat) : Option Nat :=
  if m < 2 ^ 53 then some m
  else
    let shift := excessBits m m
    let mantissa := m / 2 ^ shift
    let rest := m % 2 ^ shift
    let half := 2 ^ (shift - 1)
    let rounded :=
      if half < rest ∨ (rest = half ∧ mantissa % 2 = 1) then mantissa + 1 else mantissa
    if rounded * 2 ^ shift < doubleLimit then some (rounded * 2 ^ shift) else none

/-- The number `JSON.parse` reads from the integer literal `n`: the nearest
double, with the sign of `n`; `none` stands for `Infinity` or `-Infinity`. -/
def toDouble (n : Int) : Option Int :=
  (roundToDouble n.natAbs).map fun v => if n < 0 then -(v : Int) else (v : Int)

/-- `Number.isSafeInteger`: the magnitude is at most `2 ^ 53 - 1`. -/
def isSafeInteger (n : Int) : Prop := n.natAbs < 2 ^ 53

instance (n : Int) : Decidable (isSafeInteger n) := by
  unfold isSafeInteger; infer_instance

/-! ## Queries -/

/-- Rows of `warehouse_inventory` selected by
`WHERE warehouse_id = ? AND product_id = ?`. -/
def isInventoryOf (w p : Int) (r : InventoryRow) : Bool :=
  r.warehouse_id == w && r.product_id == p

/-- Rows of `distributor_stock` selected by
`WHERE distributor_id = ? AND product_id = ?`. -/
def isStockOf (d p : Int) (r : StockRow) : Bool :=
  r.distributor_id == d && r.product_id == p

/-- `SELECT qty FROM warehouse_inventory WHERE warehouse_id = ? AND
product_id = ?`, first row. -/
def warehouseQty (s : Store) (w p : Int) : Option Int :=
  (s.warehouse_inventory.find? (isInventoryOf w p)).map (·.qty)

/-- `SELECT qty FROM distributor_stock WHERE distributor_id = ? AND
product_id = ?`, first row. -/
def distributorQty (s : Store) (d p : Int) : Option Int :=
  (s.distributor_stock.find? (isStockOf d p)).map (·.qty)

/-- `SELECT * FROM incoming_orders WHERE id = ?`, first row. -/
def findOrder (s : Store) (orderId : Int) : Option Order :=
  s.incoming_orders.find? (fun o => o.id == orderId)

/-- `SELECT name FROM warehouses WHERE id = ?`, first row. -/
def findWarehouse (s : Store) (w : Int) : Option Warehouse :=
  s.warehouses.find? (fun r => r.id == w)

/-- `SELECT ... FROM order_status WHERE order_id = ?`, first row. -/
def findOrderStatus (s : Store) (orderId : Int) : Option OrderStatusRow :=
  s.order_status.find? (fun r => r.order_id == orderId)

/-! ## Handlers -/

/-- `POST /api/add-stock` (AddStock). -/
def addStock (s : Store) (warehouseId : Option Int) (sku : Option String)
    (qty : Option Int) : Response × Store :=
  if falsy warehouseId || falsyText sku || isNaN qty then (.invalidInput, s)
  else
    match warehouseId, sku, qty with
    | some w, some k, some q =>
      match s.products.find? (fun p => p.sku == k) with
      | none => (.notFound, s)
      | some product =>
        let s1 : Store :=
          if (s.warehouse_inventory.filter (isInventoryOf w product.id)).length > 0 then
            { s with warehouse_inventory := s.warehouse_inventory.map fun r =>
                if isInventoryOf w product.id r then { r with qty := r.qty + q } else r }
          else
            { s with warehouse_inventory :=
                s.warehouse_inventory ++ [⟨w, product.id, q⟩] }
        match findWarehouse s1 w with
        | none => (.serverError, s1)
        | some wh =>
          (.ok, { s1 with activity_logs := s1.activity_logs ++
            [⟨wh.name ++ " (Admin)",
              "➕ Added " ++ toString q ++ " stock for " ++ product.name⟩] })
    | _, _, _ => (.invalidInput, s)

/-- `POST /api/warehouse/dispatch` (Dispatch). -/
def dispatch (s : Store) (orderId : Option Int) : Response × Store :=
  if falsy orderId then (.invalidInput, s)
  else
    match orderId with
    | none => (.invalidInput, s)
    | some oid =>
      match findOrder s oid with
      | none => (.notFound, s)
      | some order =>
        let s1 : Store :=
          { s with warehouse_inventory := s.warehouse_inventory.map fun r =>
              if isInventoryOf order.warehouse_id order.product_id r
              then { r with qty := max (r.qty - order.qty) 0 } else r }
        let s2 : Store :=
          { s1 with incoming_orders := s1.incoming_orders.map fun o =>
              if o.id == oid then { o with status := .Shipped } else o }
        match findWarehouse s2 order.warehouse_id,
              s2.distributors.find? (fun d => d.id == order.distributor_id),
              s2.products.find? (fun p => p.id == order.product_id) with
        | some wh, some dist, some prod =>
          (.ok, { s2 with activity_logs := s2.activity_logs ++
            [⟨wh.name ++ " (" ++ dist.name ++ ")",
              "📦 Order #" ++ toString oid ++ " updated to \"Shipped\" for "
                ++ prod.name ++ " (qty: " ++ toString order.qty ++ ")"⟩] })
        | _, _, _ => (.serverError, s2)

/-- `POST /api/order` (PlaceOrder). The new row takes the auto-increment id and
the numbers of the request as the handler holds them, that is as doubles. An
infinity is written `Infinity` into the text of the `INSERT`, which the
database refuses: the statement throws and the `catch` block answers 500. -/
def placeOrder (s : Store) (distributor_id warehouse_id product_id qty : Option Int) :
    Response × Store :=
  if falsy distributor_id || falsy warehouse_id || falsy product_id || falsy qty
      || leZero qty then (.invalidInput, s)
  else
    match distributor_id, warehouse_id, product_id, qty with
    | some d, some w, some p, some q =>
      match toDouble d, toDouble w, toDouble p, toDouble q with
      | some d', some w', some p', some q' =>
        (.ok, { s with
          incoming_orders := s.incoming_orders ++ [⟨s.nextOrderId, d', w', p', q', .Pending⟩]
          nextOrderId := s.nextOrderId + 1 })
      | _, _, _, _ => (.serverError, s)
    | _, _, _, _ => (.invalidInput, s)

/-- `POST /api/distributor/confirm-delivery` (ConfirmDelivery): one
`UPDATE incoming_orders SET status = 'Delivered' WHERE id = ? AND status =
'Shipped'`, then a test of the number of rows it touched. -/
def confirmDelivery (s : Store) (orderId : Option Int) : Response × Store :=
  if falsy orderId then (.invalidInput, s)
  else
    match orderId with
    | none => (.invalidInput, s)
    | some oid =>
      let affectedRows : Nat :=
        (s.incoming_orders.filter fun o => o.id == oid && o.status == .Shipped).length
      let s1 : Store :=
        { s with incoming_orders := s.incoming_orders.map fun o =>
            if o.id == oid && o.status == .Shipped then { o with status := .Delivered }
            else o }
      if affectedRows = 0 then (.preconditionFailed, s1) else (.ok, s1)

/-- `POST /api/distributor/sales` (RecordSale). -/
def recordSale (s : Store) (distributorId productId qty : Option Int) :
    Response × Store :=
  if falsy distributorId || falsy productId || falsy qty || leZero qty then
    (.invalidInput, s)
  else
    match distributorId, productId, qty with
    | some d, some p, some q =>
      match s.distributor_stock.find? (isStockOf d p) with
      | none => (.insufficientStock, s)
      | some stock =>
        if stock.qty < q then (.insufficientStock, s)
        else
          let s1 : Store := { s with sales := s.sales ++ [⟨d, p, q⟩] }
          let s2 : Store :=
            { s1 with distributor_stock := s1.distributor_stock.map fun r =>
                if isStockOf d p r then { r with qty := r.qty - q } else r }
          (.ok, s2)
    | _, _, _ => (.invalidInput, s)

/-- `INSERT INTO distributor_stock (distributor_id, product_id, qty) VALUES
(?, ?, ?) ON DUPLICATE KEY UPDATE qty = qty + ?`, the key being the pair
(distributor_id, product_id). -/
def creditDistributorStock (rows : List StockRow) (d p quantity : Int) : List StockRow :=
  if rows.any (isStockOf d p) then
    rows.map fun r => if isStockOf d p r then { r with qty := r.qty + quantity } else r
  else rows ++ [⟨d, p, quantity⟩]

/-- `PUT /orders/:id` (SetOrderStatus, the admin status update). It works on
`order_status` and `order_status_history`, not on `incoming_orders`. -/
def setOrderStatus (s : Store) (orderId : Int) (status : String) : Response × Store :=
  match findOrderStatus s orderId with
  | none => (.notFound, s)
  | some row =>
    let s1 : Store :=
      { s with order_status := s.order_status.map fun r =>
          if r.order_id == orderId then { r with status := status } else r }
    let s2 : Store :=
      { s1 with order_status_history := s1.order_status_history ++
          [⟨orderId, row.warehouse_id, row.distributor_name, row.product_name,
            row.quantity, status⟩] }
    let s3 : Store :=
      if status == "Delivered" then
        match s2.distributors.find? (fun d => d.email == row.distributor_name),
              s2.products.find? (fun p => p.name == row.product_name) with
        | some dist, some prod =>
          { s2 with distributor_stock :=
              creditDistributorStock s2.distributor_stock dist.id prod.id row.quantity }
        | _, _ => s2
      else s2
    match findWarehouse s3 row.warehouse_id with
    | none => (.serverError, s3)
    | some wh =>
      (.ok, { s3 with activity_logs := s3.activity_logs ++
        [⟨wh.name ++ " (" ++ row.distributor_name ++ ")",
          "📦 Order #" ++ toString orderId ++ " updated to \"" ++ status ++ "\" for "
            ++ row.product_name⟩] })

/-- `POST /api/warehouse/purchase` (a customer purchase at a warehouse). -/
def purchase (s : Store) (warehouseId : Option Int) (customerName productName : Option String)
    (quantity : Option Int) : Response × Store :=
  if falsy warehouseId || falsyText customerName || falsyText productName
      || falsy quantity || leZero quantity then (.invalidInput, s)
  else
    match warehouseId, customerName, productName, quantity with
    | some w, some customer, some pname, some q =>
      match s.products.find? (fun p => p.name == pname) with
      | none => (.notFound, s)
      | some product =>
        match s.warehouse_inventory.find? (isInventoryOf w product.id) with
        | none => (.insufficientStock, s)
        | some inventory =>
          if inventory.qty < q then (.insufficientStock, s)
          else
            match findWarehouse s w with
            | none => (.notFound, s)
            | some warehouse =>
              let s1 : Store :=
                { s with warehouse_inventory := s.warehouse_inventory.map fun r =>
                    if isInventoryOf w product.id r then { r with qty := r.qty - q } else r }
              let s2 : Store :=
                { s1 with customer_purchases := s1.customer_purchases ++
                    [⟨warehouse.name, customer, pname, q⟩] }
              (.ok, { s2 with activity_logs := s2.activity_logs ++
                [⟨warehouse.name ++ " (" ++ customer ++ ")",
                  customer ++ " purchased " ++ toString q ++ " units of " ++ pname⟩] })
    | _, _, _, _ => (.invalidInput, s)

/-! ## Command sequences -/

/-- The commands of the order lifecycle, with the fields of their requests. -/
inductive Cmd where
  | addStock (warehouseId : Option Int) (sku : Option String) (qty : Option Int)
  | dispatch (orderId : Option Int)
  | placeOrder (distributor_id warehouse_id product_id qty : Option Int)
  | confirmDelivery (orderId : Option Int)
  deriving DecidableEq, Repr

/-- Run one command: the handler's response and the store it leaves. -/
def exec (s : Store) : Cmd → Response × Store
  | .addStock w k q => addStock s w k q
  | .dispatch o => dispatch s o
  | .placeOrder d w p q => placeOrder s d w p q
  | .confirmDelivery o => confirmDelivery s o

/-- The store after a sequence of commands, run one after the other. -/
def run (s : Store) : List Cmd → Store
  | [] => s
  | c :: cs => run (exec s c).2 cs

/-- All the stores a sequence of commands goes through, the initial one first. -/
def trace (s : Store) : List Cmd → List Store
  | [] => [s]
  | c :: cs => s :: trace (exec s c).2 cs

/-- The command is an AddStock or a Dispatch. -/
def Cmd.isStockCmd : Cmd → Bool
  | .addStock _ _ _ => true
  | .dispatch _ => true
  | _ => false

/-- The command is a PlaceOrder, a Dispatch or a ConfirmDelivery. -/
def Cmd.isOrderCmd : Cmd → Bool
  | .addStock _ _ _ => false
  | _ => true

/-- Every row of `warehouse_inventory` holds a quantity that is not negative. -/
def inventoryNonneg (s : Store) : Prop :=
  ∀ r ∈ s.warehouse_inventory, 0 ≤ r.qty

instance (s : Store) : Decidable (inventoryNonneg s) := by
  unfold inventoryNonneg; infer_instance

/-- Position of a status in the lifecycle Pending, Shipped, Delivered. -/
def Status.rank : Status → Nat
  | .Pending => 0
  | .Shipped => 1
  | .Delivered => 2

/-- The responses to `n` ConfirmDelivery requests for the same order, served
one after the other, and the store they leave. -/
def confirmMany (s : Store) (orderId : Option Int) : Nat → List Response × Store
  | 0 => ([], s)
  | n + 1 =>
    let r := confirmDelivery s orderId
    let rest := confirmMany r.2 orderId n
    (r.1 :: rest.1, rest.2)

/-! ## Sample stores -/

/-- A store with warehouse 2, distributor 5 and product 9, the pair (2, 9)
holding `stock` units, and one order, number 1, of `ordered` units of product 9
from warehouse 2 for distributor 5, in status `st`. -/
def sampleStore (stock ordered : Int) (st : Status) : Store :=
  { products := [⟨9, "Ragi", "RG1"⟩]
    warehouses := [⟨2, "North"⟩]
    distributors := [⟨5, "Asha", "asha@example.org"⟩]
    warehouse_inventory := [⟨2, 9, stock⟩]
    distributor_stock := []
    incoming_orders := [⟨1, 5, 2, 9, ordered, st⟩]
    nextOrderId := 2
    order_status := [⟨1, 2, "asha@example.org", "Ragi", ordered, "Pending"⟩]
    order_status_history := []
    sales := []
    customer_purchases := []
    activity_logs := [] }

/-- The sample store with distributor 5 holding `held` units of product 9. -/
def sampleStoreWithStock (held : Int) : Store :=
  { sampleStore 10 10 .Shipped with distributor_stock := [⟨5, 9, held⟩] }

/-- A copy of the sample store (3 units in stock, a Pending 10-unit order)
whose `warehouses` table is empty, so that no warehouse name resolves. -/
def sampleStoreNoWarehouse : Store :=
  { sampleStore 3 10 .Pending with warehouses := [] }

/-- A copy of the sample store whose `order_status` row for order 1 names a
distributor, "Asha", that is the e-mail address of no row of `distributors`. -/
def sampleStoreUnknownDistributor : Store :=
  { sampleStore 10 10 .Pending with
    order_status := [⟨1, 2, "Asha", "Ragi", 10, "Shipped"⟩] }

/-- A copy of the sample store, its order 1 Shipped, whose `order_status`
table is empty, as in every store that only the handlers have filled. -/
def sampleStoreNoOrderStatus : Store :=
  { sampleStore 10 10 .Shipped with order_status := [] }

/-! ## Repeated and interleaved requests -/

/-- The store after `k` SetOrderStatus requests for the same order with the
same status, served one after the other. -/
def setOrderStatusMany (s : Store) (orderId : Int) (status : String) : Nat → Store
  | 0 => s
  | k + 1 => setOrderStatusMany (setOrderStatus s orderId status).2 orderId status k

/-- Where a `POST /api/distributor/sales` request stands. The handler sends
three statements, each behind an `await`: the `SELECT` of the stock, the
`INSERT INTO sales` and the `UPDATE` of the stock. Between two of them the
server is free to run the statements of another request. -/
inductive SaleTask where
  /-- The request has arrived, nothing has run. -/
  | received (distributorId productId qty : Option Int)
  /-- The guard and the stock check have passed; the `INSERT` is next. -/
  | checked (d p q : Int)
  /-- The sale row is inserted; the `UPDATE` of the stock is next. -/
  | recorded (d p q : Int)
  /-- The response has been sent. -/
  | answered (r : Response)
  deriving DecidableEq, Repr

/-- One statement of a RecordSale request: the part of the handler of
`POST /api/distributor/sales` from one `await` to the next. -/
def saleStep (s : Store) : SaleTask → SaleTask × Store
  | .received distributorId productId qty =>
    if falsy distributorId || falsy productId || falsy qty || leZero qty then
      (.answered .invalidInput, s)
    else
      match distributorId, productId, qty with
      | some d, some p, some q =>
        match s.distributor_stock.find? (isStockOf d p) with
        | none => (.answered .insufficientStock, s)
        | some stock =>
          if stock.qty < q then (.answered .insufficientStock, s)
          else (.checked d p q, s)
      | _, _, _ => (.answered .invalidInput, s)
  | .checked d p q => (.recorded d p q, { s with sales := s.sales ++ [⟨d, p, q⟩] })
  | .recorded d p q =>
    (.answered .ok,
      { s with distributor_stock := s.distributor_stock.map fun r =>
                if isStockOf d p r then { r with qty := r.qty - q } else r })
  | .answered r => (.answered r, s)

/-- Two RecordSale requests in flight, run along a schedule: at each entry the
first request (`false`) or the second (`true`) runs its next statement. -/
def runSales (s : Store) (a b : SaleTask) : List Bool → Store × SaleTask × SaleTask
  | [] => (s, a, b)
  | false :: rest => runSales (saleStep s a).2 (saleStep s a).1 b rest
  | true :: rest => runSales (saleStep s b).2 a (saleStep s b).1 rest

/-! ## Lemmas on the queries -/

theorem find?_map_of_pred_eq {α : Type} (p : α → Bool) (f : α → α)
    (hf : ∀ x, p (f x) = p x) (l : List α) :
    (l.map f).find? p = (l.find? p).map f := by
  induction l with
  | nil => rfl
  | cons a l ih =>
    simp only [List.map_cons, List.find?_cons, hf]
    cases p a <;> simp [ih]

theorem map_eq_self_of_forall {α : Type} (f : α → α) (l : List α)
    (h : ∀ x ∈ l, f x = x) : l.map f = l := by
  induction l with
  | nil => rfl
  | cons a l ih =>
    simp only [List.map_cons]
    rw [h a (List.mem_cons_self a l), ih (fun x hx => h x (List.mem_cons_of_mem a hx))]

/-- What Dispatch leaves in `warehouse_inventory` and `incoming_orders` once
the order is found, whether or not the activity log step goes through. -/
theorem dispatch_tables (s : Store) (oid : Int) (o : Order) (h0 : oid ≠ 0)
    (ho : findOrder s oid = some o) :
    (dispatch s (some oid)).2.warehouse_inventory =
        s.warehouse_inventory.map (fun r =>
          if isInventoryOf o.warehouse_id o.product_id r
          then { r with qty := max (r.qty - o.qty) 0 } else r)
    ∧ (dispatch s (some oid)).2.incoming_orders =
        s.incoming_orders.map (fun x =>
          if x.id == oid then { x with status := .Shipped } else x)
    ∧ (dispatch s (some oid)).2.distributor_stock = s.distributor_stock
    ∧ (dispatch s (some oid)).2.order_status_history = s.order_status_history
    ∧ (dispatch s (some oid)).2.order_status = s.order_status := by
  unfold dispatch
  simp only [falsy, beq_iff_eq, h0, Bool.false_eq_true, if_false, ho]
  split <;> simp

theorem dispatch_ok_nonzero (s : Store) (oid : Int)
    (hok : (dispatch s (some oid)).1 = .ok) : oid ≠ 0 := by
  intro h
  subst h
  simp [dispatch, falsy] at hok

/-! ## C1: warehouse inventory and negative AddStock quantities -/

/-- C1 (defect of the code): AddStock only tests `isNaN(qty)`, so a negative
quantity is accepted. On the sample store, whose only inventory row holds 3
(so every quantity is at least 0), the one-command sequence
AddStock(2, "RG1", -5) answers success and leaves the (2, 9) row at -2: the
inventory is no longer non-negative after a sequence of AddStock and Dispatch
commands. -/
theorem addStock_negative_breaks_inventoryNonneg :
    inventoryNonneg (sampleStore 3 10 .Pending)
    ∧ (Cmd.addStock (some 2) (some "RG1") (some (-5))).isStockCmd = true
    ∧ (exec (sampleStore 3 10 .Pending)
        (.addStock (some 2) (some "RG1") (some (-5)))).1 = .ok
    ∧ warehouseQty (run (sampleStore 3 10 .Pending)
        [.addStock (some 2) (some "RG1") (some (-5))]) 2 9 = some (-2)
    ∧ ¬ inventoryNonneg (run (sampleStore 3 10 .Pending)
        [.addStock (some 2) (some "RG1") (some (-5))]) := by
  refine ⟨by decide, by decide, by decide, by decide, by decide⟩

/-- AddStock keeps the inventory non-negative when its quantity is not
negative (or when the request is rejected). -/
theorem addStock_inventoryNonneg (s : Store) (w : Option Int) (k : Option String)
    (q : Option Int) (hq : ∀ n, q = some n → 0 ≤ n) (h : inventoryNonneg s) :
    inventoryNonneg (addStock s w k q).2 := by
  rcases w with _ | w <;> rcases k with _ | k <;> rcases q with _ | n <;>
    try (simpa [addStock, falsy, falsyText, isNaN] using h)
  have hn : 0 ≤ n := hq n rfl
  unfold addStock
  split
  · exact h
  · simp only
    cases hp : s.products.find? (fun p => p.sku == k) with
    | none => exact h
    | some product =>
      simp only
      have key : ∀ r ∈ (if (s.warehouse_inventory.filter
            (isInventoryOf w product.id)).length > 0 then
            { s with warehouse_inventory := s.warehouse_inventory.map fun r =>
                if isInventoryOf w product.id r then { r with qty := r.qty + n } else r }
          else
            { s with warehouse_inventory :=
                s.warehouse_inventory ++ [⟨w, product.id, n⟩] } : Store).warehouse_inventory,
          0 ≤ r.qty := by
        intro r hr
        split at hr
        · simp only [List.mem_map] at hr
          obtain ⟨r0, hr0, rfl⟩ := hr
          have := h r0 hr0
          split
          · simp only; omega
          · exact this
        · simp only [List.mem_append, List.mem_singleton] at hr
          rcases hr with hr | rfl
          · exact h r hr
          · exact hn
      split
      · exact key
      · exact key

/-- Dispatch keeps the inventory non-negative: the decrement is floored. -/
theorem dispatch_inventoryNonneg (s : Store) (orderId : Option Int)
    (h : inventoryNonneg s) : inventoryNonneg (dispatch s orderId).2 := by
  cases orderId with
  | none => simpa [dispatch, falsy] using h
  | some oid =>
    by_cases h0 : oid = 0
    · subst h0; simpa [dispatch, falsy] using h
    · cases ho : findOrder s oid with
      | none => simpa [dispatch, falsy, h0, ho] using h
      | some o =>
        intro r hr
        rw [(dispatch_tables s oid o h0 ho).1, List.mem_map] at hr
        obtain ⟨r0, hr0, rfl⟩ := hr
        split
        · exact le_max_right _ _
        · exact h r0 hr0

/-- The part of C1 that the code keeps: along every sequence of AddStock and
Dispatch commands whose AddStock quantities are not negative, started in a
store with non-negative inventory, every store reached has non-negative
inventory. -/
theorem inventoryNonneg_trace (cs : List Cmd) :
    ∀ s : Store, inventoryNonneg s →
      (∀ c ∈ cs, c.isStockCmd = true) →
      (∀ w k n, Cmd.addStock w k (some n) ∈ cs → 0 ≤ n) →
      ∀ s' ∈ trace s cs, inventoryNonneg s' := by
  induction cs with
  | nil =>
    intro s h _ _ s' hs'
    simp only [trace, List.mem_singleton] at hs'
    exact hs' ▸ h
  | cons c cs ih =>
    intro s h hc hq s' hs'
    simp only [trace, List.mem_cons] at hs'
    rcases hs' with rfl | hs'
    · exact h
    · refine ih (exec s c).2 ?_ (fun c' hc' => hc c' (List.mem_cons_of_mem _ hc'))
        (fun w k n hm => hq w k n (List.mem_cons_of_mem _ hm)) s' hs'
      cases c with
      | addStock w k q =>
        exact addStock_inventoryNonneg s w k q
          (fun n hn => hq w k n (hn ▸ List.mem_cons_self _ _)) h
      | dispatch o => exact dispatch_inventoryNonneg s o h
      | placeOrder d w p q => simpa [Cmd.isStockCmd] using hc _ (List.mem_cons_self _ _)
      | confirmDelivery o => simpa [Cmd.isStockCmd] using hc _ (List.mem_cons_self _ _)

/-! ## C2: Dispatch floors the decrement and ships the order -/

/-- C2: for an order `o` found under `oid` whose (warehouse, product) entry
holds `q`, a successful Dispatch(oid) leaves that entry at
`max (q - o.qty) 0` and the order with status Shipped, its other fields
untouched. -/
theorem dispatch_floors_inventory_and_ships (s : Store) (oid : Int) (o : Order) (q : Int)
    (ho : findOrder s oid = some o)
    (hq : warehouseQty s o.warehouse_id o.product_id = some q)
    (hok : (dispatch s (some oid)).1 = .ok) :
    warehouseQty (dispatch s (some oid)).2 o.warehouse_id o.product_id
        = some (max (q - o.qty) 0)
    ∧ findOrder (dispatch s (some oid)).2 oid = some { o with status := .Shipped } := by
  have h0 := dispatch_ok_nonzero s oid hok
  obtain ⟨hinv, hord, -⟩ := dispatch_tables s oid o h0 ho
  constructor
  · unfold warehouseQty at hq ⊢
    rw [hinv, find?_map_of_pred_eq]
    · cases hf : s.warehouse_inventory.find? (isInventoryOf o.warehouse_id o.product_id) with
      | none => simp [hf] at hq
      | some r =>
        have hr := List.find?_some hf
        simp only [hf, Option.map_some', Option.some.injEq] at hq
        simp [hr, hq]
    · intro r
      split <;> simp_all [isInventoryOf]
  · unfold findOrder at ho ⊢
    rw [hord, find?_map_of_pred_eq]
    · have hid := List.find?_some ho
      simp only [ho, Option.map_some'] 
      simp only [beq_iff_eq] at hid
      simp [hid]
    · intro x
      split <;> simp_all

/-- C2 at the two scenarios of the specification: stock 3 and a 10-unit order
gives stock 0, stock 10 and a 10-unit order gives stock 0; the order is
Shipped in both. -/
theorem dispatch_floors_inventory_and_ships_witness :
    (warehouseQty (dispatch (sampleStore 3 10 .Pending) (some 1)).2 2 9 = some 0
      ∧ findOrder (dispatch (sampleStore 3 10 .Pending) (some 1)).2 1
          = some ⟨1, 5, 2, 9, 10, .Shipped⟩)
    ∧ (warehouseQty (dispatch (sampleStore 10 10 .Pending) (some 1)).2 2 9 = some 0
      ∧ findOrder (dispatch (sampleStore 10 10 .Pending) (some 1)).2 1
          = some ⟨1, 5, 2, 9, 10, .Shipped⟩) :=
  ⟨dispatch_floors_inventory_and_ships (sampleStore 3 10 .Pending) 1
      ⟨1, 5, 2, 9, 10, .Pending⟩ 3 (by decide) (by decide) (by decide),
   dispatch_floors_inventory_and_ships (sampleStore 10 10 .Pending) 1
      ⟨1, 5, 2, 9, 10, .Pending⟩ 10 (by decide) (by decide) (by decide)⟩

/-! ## C3: the guard of ConfirmDelivery -/

/-- The store ConfirmDelivery leaves for a non-zero order id: the conditional
update applied to `incoming_orders`, every other table as it was. -/
theorem confirmDelivery_store (s : Store) (oid : Int) (h0 : oid ≠ 0) :
    (confirmDelivery s (some oid)).2 =
      { s with incoming_orders := s.incoming_orders.map fun o =>
          if o.id == oid && o.status == .Shipped then { o with status := .Delivered }
          else o } := by
  unfold confirmDelivery
  simp only [falsy, beq_iff_eq, h0, Bool.false_eq_true, if_false]
  split <;> rfl

theorem confirmDelivery_ok_iff (s : Store) (oid : Int) (h0 : oid ≠ 0) :
    (confirmDelivery s (some oid)).1 = .ok ↔
      ∃ o ∈ s.incoming_orders, o.id = oid ∧ o.status = .Shipped := by
  unfold confirmDelivery
  simp only [falsy, beq_iff_eq, h0, Bool.false_eq_true, if_false, List.length_eq_zero,
    List.filter_eq_nil_iff]
  split
  · rename_i h
    simp only [reduceCtorEq, false_iff, not_exists, not_and]
    intro o ho hid hst
    exact h o ho (by simp [hid, hst])
  · rename_i h
    simp only [true_iff]
    push_neg at h
    obtain ⟨o, ho, hp⟩ := h
    simp only [Bool.and_eq_true, beq_iff_eq] at hp
    exact ⟨o, ho, hp.1, hp.2⟩

theorem confirmDelivery_not_ok (s : Store) (oid : Int) (h0 : oid ≠ 0)
    (h : (confirmDelivery s (some oid)).1 ≠ .ok) :
    confirmDelivery s (some oid) = (.preconditionFailed, s) := by
  have hno : ∀ o ∈ s.incoming_orders, ¬ (o.id = oid ∧ o.status = .Shipped) := by
    intro o ho hp
    exact h ((confirmDelivery_ok_iff s oid h0).2 ⟨o, ho, hp⟩)
  have hst := confirmDelivery_store s oid h0
  rw [map_eq_self_of_forall] at hst
  · refine Prod.ext ?_ hst
    unfold confirmDelivery at h ⊢
    simp only [falsy, beq_iff_eq, h0, Bool.false_eq_true, if_false] at h ⊢
    split
    · rfl
    · rename_i hne
      simp [hne] at h
  · intro o ho
    have := hno o ho
    split
    · rename_i hp
      simp only [Bool.and_eq_true, beq_iff_eq] at hp
      exact absurd hp this
    · rfl

/-- C3 (as stated, refuted): ConfirmDelivery(0) on the sample store does not
succeed, yet the error is not PreconditionFailed: the handler answers the 400
"Missing orderId" of its guard `if (!orderId)`. -/
theorem confirmDelivery_zero_id_not_preconditionFailed :
    ¬ ((confirmDelivery (sampleStore 10 10 .Shipped) (some 0)).1 ≠ .ok →
        (confirmDelivery (sampleStore 10 10 .Shipped) (some 0)).1 = .preconditionFailed) := by
  decide

/-- C3 (amended): for an order id that is present and not zero,
ConfirmDelivery succeeds if and only if some order has that id and status
Shipped; on success every such order becomes Delivered and every other order
is as before; in every other case the answer is PreconditionFailed and the
store is unchanged. For a missing or zero order id the answer is InvalidInput
and the store is unchanged. -/
theorem confirmDelivery_guard (s : Store) (orderId : Option Int) :
    (falsy orderId = true → confirmDelivery s orderId = (.invalidInput, s))
    ∧ (∀ oid : Int, orderId = some oid → oid ≠ 0 →
        ((confirmDelivery s orderId).1 = .ok ↔
          ∃ o ∈ s.incoming_orders, o.id = oid ∧ o.status = .Shipped)
        ∧ (∀ (i : Nat) (o : Order), s.incoming_orders[i]? = some o →
            (confirmDelivery s orderId).2.incoming_orders[i]? =
              some (if o.id = oid ∧ o.status = .Shipped
                    then { o with status := .Delivered } else o))
        ∧ ((confirmDelivery s orderId).1 ≠ .ok →
            confirmDelivery s orderId = (.preconditionFailed, s))) := by
  constructor
  · intro h
    simp [confirmDelivery, h]
  · rintro oid rfl h0
    refine ⟨confirmDelivery_ok_iff s oid h0, ?_, confirmDelivery_not_ok s oid h0⟩
    intro i o hi
    rw [confirmDelivery_store s oid h0]
    simp only [List.getElem?_map, hi, Option.map_some', Option.some.injEq]
    by_cases hp : o.id = oid ∧ o.status = .Shipped
    · simp [hp.1, hp.2]
    · rw [if_neg hp, if_neg]
      simpa using hp

/-- C3 (amended) on the sample store: ConfirmDelivery(1) on the Shipped order
succeeds and makes it Delivered, ConfirmDelivery(1) on the Pending order is
PreconditionFailed, and ConfirmDelivery without an id is InvalidInput. -/
theorem confirmDelivery_guard_witness :
    (confirmDelivery (sampleStore 10 10 .Shipped) (some 1)).1 = .ok
    ∧ (confirmDelivery (sampleStore 10 10 .Shipped) (some 1)).2.incoming_orders[0]? =
        some ⟨1, 5, 2, 9, 10, .Delivered⟩
    ∧ confirmDelivery (sampleStore 10 10 .Pending) (some 1) =
        (.preconditionFailed, sampleStore 10 10 .Pending)
    ∧ confirmDelivery (sampleStore 10 10 .Shipped) none =
        (.invalidInput, sampleStore 10 10 .Shipped) :=
  ⟨((confirmDelivery_guard (sampleStore 10 10 .Shipped) (some 1)).2 1 rfl (by decide)).1.2
      ⟨⟨1, 5, 2, 9, 10, .Shipped⟩, by decide, by decide, by decide⟩,
   ((confirmDelivery_guard (sampleStore 10 10 .Shipped) (some 1)).2 1 rfl (by decide)).2.1
      0 ⟨1, 5, 2, 9, 10, .Shipped⟩ (by decide),
   ((confirmDelivery_guard (sampleStore 10 10 .Pending) (some 1)).2 1 rfl (by decide)).2.2
      (by decide),
   (confirmDelivery_guard (sampleStore 10 10 .Shipped) none).1 (by decide)⟩

/-! ## C4: repeated ConfirmDelivery -/

/-- After ConfirmDelivery no order with that id is Shipped any more. -/
theorem confirmDelivery_none_shipped (s : Store) (oid : Int) (h0 : oid ≠ 0) :
    ∀ o ∈ (confirmDelivery s (some oid)).2.incoming_orders,
      ¬ (o.id = oid ∧ o.status = .Shipped) := by
  rw [confirmDelivery_store s oid h0]
  intro o ho
  simp only [List.mem_map] at ho
  obtain ⟨x, _, rfl⟩ := ho
  by_cases hp : x.id = oid ∧ x.status = .Shipped
  · simp [hp.1, hp.2]
  · rw [if_neg (by simpa using hp)]
    exact hp

/-- ConfirmDelivery requests on a store with no Shipped order of that id are
all answered PreconditionFailed and change nothing. -/
theorem confirmMany_of_none_shipped (oid : Int) (h0 : oid ≠ 0) (n : Nat) :
    ∀ s : Store, (∀ o ∈ s.incoming_orders, ¬ (o.id = oid ∧ o.status = .Shipped)) →
      confirmMany s (some oid) n = (List.replicate n .preconditionFailed, s) := by
  induction n with
  | zero => intro s _; rfl
  | succ n ih =>
    intro s hs
    have hno : (confirmDelivery s (some oid)).1 ≠ .ok := by
      rw [Ne, confirmDelivery_ok_iff s oid h0]
      rintro ⟨o, ho, hp⟩
      exact hs o ho hp
    have hpf := confirmDelivery_not_ok s oid h0 hno
    simp only [confirmMany, hpf, ih s hs, List.replicate_succ]

/-- C4: for an order `o` of the store that is Shipped (its id not zero, as for
every auto-increment key) and every `n ≥ 1`, `n` ConfirmDelivery requests for
`o`, each one atomic conditional update, served in a row: the first succeeds,
the `n - 1` others are answered PreconditionFailed, so there is exactly one
success, and the store after all `n` is the store after the first. In that
store `o` is Delivered: every row is where it was, the Shipped rows of that
id with status Delivered and all other rows untouched, and no table other
than `incoming_orders` has changed. -/
theorem confirmMany_once (s : Store) (o : Order) (n : Nat)
    (ho : o ∈ s.incoming_orders) (hst : o.status = .Shipped) (h0 : o.id ≠ 0)
    (hn : 1 ≤ n) :
    (confirmMany s (some o.id) n).1 =
        .ok :: List.replicate (n - 1) .preconditionFailed
    ∧ (confirmMany s (some o.id) n).1.count .ok = 1
    ∧ (confirmMany s (some o.id) n).1.count .preconditionFailed = n - 1
    ∧ (confirmMany s (some o.id) n).2 = (confirmDelivery s (some o.id)).2
    ∧ (∀ i : Nat, s.incoming_orders[i]? = some o →
        (confirmMany s (some o.id) n).2.incoming_orders[i]? =
          some { o with status := .Delivered })
    ∧ (∀ (i : Nat) (x : Order), s.incoming_orders[i]? = some x →
        (confirmMany s (some o.id) n).2.incoming_orders[i]? =
          some (if x.id = o.id ∧ x.status = .Shipped
                then { x with status := .Delivered } else x))
    ∧ (confirmMany s (some o.id) n).2.incoming_orders.length = s.incoming_orders.length
    ∧ (confirmMany s (some o.id) n).2 =
        { s with incoming_orders := (confirmMany s (some o.id) n).2.incoming_orders } := by
  obtain ⟨m, rfl⟩ : ∃ m, n = m + 1 := ⟨n - 1, by omega⟩
  have hok : (confirmDelivery s (some o.id)).1 = .ok :=
    (confirmDelivery_ok_iff s o.id h0).2 ⟨o, ho, rfl, hst⟩
  have hrest := confirmMany_of_none_shipped o.id h0 m (confirmDelivery s (some o.id)).2
    (confirmDelivery_none_shipped s o.id h0)
  have hlist : (confirmMany s (some o.id) (m + 1)).1 =
      .ok :: List.replicate m .preconditionFailed := by
    simp only [confirmMany, hrest, hok]
  have hstore : (confirmMany s (some o.id) (m + 1)).2 = (confirmDelivery s (some o.id)).2 := by
    simp only [confirmMany, hrest]
  have hrows : ∀ (i : Nat) (x : Order), s.incoming_orders[i]? = some x →
      (confirmMany s (some o.id) (m + 1)).2.incoming_orders[i]? =
        some (if x.id = o.id ∧ x.status = .Shipped
              then { x with status := .Delivered } else x) := by
    intro i x hi
    rw [hstore, confirmDelivery_store s o.id h0]
    simp only [List.getElem?_map, hi, Option.map_some', Option.some.injEq]
    by_cases hp : x.id = o.id ∧ x.status = .Shipped
    · simp [hp.1, hp.2]
    · rw [if_neg hp, if_neg]
      simpa using hp
  refine ⟨by simpa using hlist, ?_, ?_, hstore, ?_, hrows, ?_, ?_⟩
  · rw [hlist, List.count_cons_self, List.count_replicate]
    simp
  · rw [hlist, List.count_cons_of_ne (by decide), List.count_replicate]
    simp
  · intro i hi
    rw [hrows i o hi, if_pos ⟨rfl, hst⟩]
  · rw [hstore, confirmDelivery_store s o.id h0]
    simp
  · rw [hstore, confirmDelivery_store s o.id h0]

/-- C4 on the sample store, twice: the first ConfirmDelivery(1) succeeds, the
second is PreconditionFailed, the store is the one the first call left, and
in it the order 1 is Delivered. -/
theorem confirmMany_once_witness :
    (confirmMany (sampleStore 10 10 .Shipped) (some 1) 2).1 = [.ok, .preconditionFailed]
    ∧ (confirmMany (sampleStore 10 10 .Shipped) (some 1) 2).1.count .ok = 1
    ∧ (confirmMany (sampleStore 10 10 .Shipped) (some 1) 2).1.count .preconditionFailed = 1
    ∧ (confirmMany (sampleStore 10 10 .Shipped) (some 1) 2).2 =
        (confirmDelivery (sampleStore 10 10 .Shipped) (some 1)).2
    ∧ (confirmMany (sampleStore 10 10 .Shipped) (some 1) 2).2.incoming_orders[0]? =
        some ⟨1, 5, 2, 9, 10, .Delivered⟩ :=
  ⟨(confirmMany_once (sampleStore 10 10 .Shipped) ⟨1, 5, 2, 9, 10, .Shipped⟩ 2
      (by decide) (by decide) (by decide) (by decide)).1,
   (confirmMany_once (sampleStore 10 10 .Shipped) ⟨1, 5, 2, 9, 10, .Shipped⟩ 2
      (by decide) (by decide) (by decide) (by decide)).2.1,
   (confirmMany_once (sampleStore 10 10 .Shipped) ⟨1, 5, 2, 9, 10, .Shipped⟩ 2
      (by decide) (by decide) (by decide) (by decide)).2.2.1,
   (confirmMany_once (sampleStore 10 10 .Shipped) ⟨1, 5, 2, 9, 10, .Shipped⟩ 2
      (by decide) (by decide) (by decide) (by decide)).2.2.2.1,
   (confirmMany_once (sampleStore 10 10 .Shipped) ⟨1, 5, 2, 9, 10, .Shipped⟩ 2
      (by decide) (by decide) (by decide) (by decide)).2.2.2.2.1 0 (by decide)⟩

/-! ## C5: ConfirmDelivery and distributor stock -/

/-- C5 (defect of the code): on the sample store the order 1 (distributor 5,
product 9, 10 units) is Shipped and distributor 5 holds no entry for product
9; ConfirmDelivery(1) succeeds and there is still no entry, where the claim
has one created with quantity 10. With an entry of 7 units the quantity
stays 7, where the claim has 17. The handler runs no statement on
`distributor_stock`; the only credit of the code is in `PUT /orders/:id`. -/
theorem confirmDelivery_no_stock_credit :
    (confirmDelivery (sampleStore 10 10 .Shipped) (some 1)).1 = .ok
    ∧ distributorQty (sampleStore 10 10 .Shipped) 5 9 = none
    ∧ distributorQty (confirmDelivery (sampleStore 10 10 .Shipped) (some 1)).2 5 9 ≠ some 10
    ∧ (confirmDelivery (sampleStoreWithStock 7) (some 1)).1 = .ok
    ∧ distributorQty (sampleStoreWithStock 7) 5 9 = some 7
    ∧ distributorQty (confirmDelivery (sampleStoreWithStock 7) (some 1)).2 5 9 ≠ some (7 + 10) := by
  refine ⟨by decide, by decide, by decide, by decide, by decide, by decide⟩

/-- ConfirmDelivery only succeeds for an order id that is not zero. -/
theorem confirmDelivery_ok_nonzero (s : Store) (oid : Int)
    (hok : (confirmDelivery s (some oid)).1 = .ok) : oid ≠ 0 := by
  intro h
  subst h
  simp [confirmDelivery, falsy] at hok

/-- The extent of the defect of C5: for every order `o` in status Shipped, a
successful ConfirmDelivery(o.id) sets `o` to Delivered and leaves the
`distributor_stock` table as it was, so that no entry is created and the
quantity of every (distributor, product) pair, the order's own included, is
what it was before. -/
theorem confirmDelivery_keeps_distributor_stock (s : Store) (i : Nat) (o : Order)
    (ho : s.incoming_orders[i]? = some o) (hst : o.status = .Shipped)
    (hok : (confirmDelivery s (some o.id)).1 = .ok) :
    (confirmDelivery s (some o.id)).2.incoming_orders[i]? =
        some { o with status := .Delivered }
    ∧ (confirmDelivery s (some o.id)).2.distributor_stock = s.distributor_stock
    ∧ distributorQty (confirmDelivery s (some o.id)).2 o.distributor_id o.product_id =
        distributorQty s o.distributor_id o.product_id
    ∧ ∀ d p : Int, distributorQty (confirmDelivery s (some o.id)).2 d p = distributorQty s d p := by
  have h0 := confirmDelivery_ok_nonzero s o.id hok
  have hst' : (confirmDelivery s (some o.id)).2.distributor_stock = s.distributor_stock := by
    rw [confirmDelivery_store s o.id h0]
  refine ⟨?_, hst', by simp only [distributorQty, hst'],
    fun d p => by simp only [distributorQty, hst']⟩
  rw [confirmDelivery_store s o.id h0]
  simp [List.getElem?_map, ho, hst]

/-- The defect of C5 on the sample store with 7 units held: ConfirmDelivery(1)
succeeds, the order is Delivered, and distributor 5 still holds 7 units of
product 9. -/
theorem confirmDelivery_keeps_distributor_stock_witness :
    (confirmDelivery (sampleStoreWithStock 7) (some 1)).2.incoming_orders[0]? =
        some ⟨1, 5, 2, 9, 10, .Delivered⟩
    ∧ (confirmDelivery (sampleStoreWithStock 7) (some 1)).2.distributor_stock =
        (sampleStoreWithStock 7).distributor_stock
    ∧ distributorQty (confirmDelivery (sampleStoreWithStock 7) (some 1)).2 5 9 =
        distributorQty (sampleStoreWithStock 7) 5 9
    ∧ ∀ d p : Int, distributorQty (confirmDelivery (sampleStoreWithStock 7) (some 1)).2 d p =
        distributorQty (sampleStoreWithStock 7) d p :=
  confirmDelivery_keeps_distributor_stock (sampleStoreWithStock 7) 0
    ⟨1, 5, 2, 9, 10, .Shipped⟩ (by decide) (by decide) (by decide)

/-! ## C6 and C7: RecordSale -/

/-- RecordSale on present fields that pass the guard: the answer and the store
are decided by the first stock row of the pair. -/
theorem recordSale_valid (s : Store) (d p q : Int) (hd : d ≠ 0) (hp : p ≠ 0) (hq : 0 < q) :
    recordSale s (some d) (some p) (some q) =
      match s.distributor_stock.find? (isStockOf d p) with
      | none => (.insufficientStock, s)
      | some stock =>
        if stock.qty < q then (.insufficientStock, s)
        else (.ok, { s with
          sales := s.sales ++ [⟨d, p, q⟩]
          distributor_stock := s.distributor_stock.map fun r =>
            if isStockOf d p r then { r with qty := r.qty - q } else r }) := by
  have hq0 : q ≠ 0 := by omega
  have hq1 : ¬ q ≤ 0 := by omega
  simp [recordSale, falsy, leZero, hd, hp, hq0, hq1]

/-- RecordSale answers InvalidInput, and changes nothing, when a field is
missing or zero or the quantity is negative. -/
theorem recordSale_invalid (s : Store) (d p q : Option Int)
    (h : ¬ ∃ dv pv qv : Int, d = some dv ∧ p = some pv ∧ q = some qv
          ∧ dv ≠ 0 ∧ pv ≠ 0 ∧ 0 < qv) :
    recordSale s d p q = (.invalidInput, s) := by
  rcases d with _ | dv <;> rcases p with _ | pv <;> rcases q with _ | qv <;>
    try (simp [recordSale, falsy, leZero])
  intro hd hp hq hle
  exact absurd ⟨dv, pv, qv, rfl, rfl, rfl, hd, hp, by omega⟩ h

/-- C6: RecordSale does not succeed when no stock entry exists for the pair or
when the quantity exceeds the entry's quantity; and whenever it succeeds, the
three fields are present, the entry exists with a quantity `b` of at least
the sold quantity, and afterwards the entry holds exactly `b` minus the sold
quantity, which is not negative. -/
theorem recordSale_success (s : Store) (d p q : Option Int) :
    (∀ dv pv qv : Int, d = some dv → p = some pv → q = some qv →
        (distributorQty s dv pv = none ∨ ∃ b, distributorQty s dv pv = some b ∧ b < qv) →
        (recordSale s d p q).1 ≠ .ok)
    ∧ ((recordSale s d p q).1 = .ok →
        ∃ dv pv qv b : Int, d = some dv ∧ p = some pv ∧ q = some qv
          ∧ distributorQty s dv pv = some b ∧ qv ≤ b
          ∧ distributorQty (recordSale s d p q).2 dv pv = some (b - qv)
          ∧ 0 ≤ b - qv) := by
  have main : (recordSale s d p q).1 = .ok →
      ∃ dv pv qv b : Int, d = some dv ∧ p = some pv ∧ q = some qv
        ∧ distributorQty s dv pv = some b ∧ qv ≤ b
        ∧ distributorQty (recordSale s d p q).2 dv pv = some (b - qv)
        ∧ 0 ≤ b - qv := by
    intro hok
    by_cases hv : ∃ dv pv qv : Int, d = some dv ∧ p = some pv ∧ q = some qv
          ∧ dv ≠ 0 ∧ pv ≠ 0 ∧ 0 < qv
    · obtain ⟨dv, pv, qv, rfl, rfl, rfl, hd, hp, hq⟩ := hv
      rw [recordSale_valid s dv pv qv hd hp hq] at hok ⊢
      cases hf : s.distributor_stock.find? (isStockOf dv pv) with
      | none => simp [hf] at hok
      | some stock =>
        simp only [hf] at hok ⊢
        by_cases hlt : stock.qty < qv
        · simp [hlt] at hok
        · have hst := List.find?_some hf
          refine ⟨dv, pv, qv, stock.qty, rfl, rfl, rfl, by simp [distributorQty, hf],
            by omega, ?_, by omega⟩
          simp only [hlt, if_false, distributorQty]
          rw [find?_map_of_pred_eq]
          · simp [hf, hst]
          · intro r
            split <;> simp_all [isStockOf]
    · rw [recordSale_invalid s d p q hv] at hok
      simp at hok
  refine ⟨?_, main⟩
  rintro dv pv qv rfl rfl rfl hbad hok
  obtain ⟨dv', pv', qv', b, hd, hp, hq, hb, hle, -⟩ := main hok
  cases hd; cases hp; cases hq
  rcases hbad with hnone | ⟨b', hb', hlt⟩
  · rw [hnone] at hb; cases hb
  · rw [hb'] at hb; cases hb; omega

/-- C6 on the sample store with 10 units held: RecordSale(5, 9, 15) does not
succeed, and the successful RecordSale(5, 9, 4) leaves 6 units. -/
theorem recordSale_success_witness :
    (recordSale (sampleStoreWithStock 10) (some 5) (some 9) (some 15)).1 ≠ .ok
    ∧ ∃ dv pv qv b : Int, some (5 : Int) = some dv ∧ some (9 : Int) = some pv
        ∧ some (4 : Int) = some qv
        ∧ distributorQty (sampleStoreWithStock 10) dv pv = some b ∧ qv ≤ b
        ∧ distributorQty (recordSale (sampleStoreWithStock 10) (some 5) (some 9) (some 4)).2
            dv pv = some (b - qv)
        ∧ 0 ≤ b - qv :=
  ⟨(recordSale_success (sampleStoreWithStock 10) (some 5) (some 9) (some 15)).1 5 9 15
      rfl rfl rfl (Or.inr ⟨10, by decide, by decide⟩),
   (recordSale_success (sampleStoreWithStock 10) (some 5) (some 9) (some 4)).2 (by decide)⟩

/-- C7: whenever RecordSale does not succeed, the store is unchanged (so every
`distributor_stock` quantity is as before and no `sales` row is inserted) and
the answer is InvalidInput or InsufficientStock; it is InsufficientStock when
the three fields are present, the ids not zero and the quantity positive. -/
theorem recordSale_rejected (s : Store) (d p q : Option Int)
    (h : (recordSale s d p q).1 ≠ .ok) :
    (recordSale s d p q).2 = s
    ∧ (recordSale s d p q).2.distributor_stock = s.distributor_stock
    ∧ (recordSale s d p q).2.sales = s.sales
    ∧ ((recordSale s d p q).1 = .invalidInput ∨ (recordSale s d p q).1 = .insufficientStock)
    ∧ (∀ dv pv qv : Int, d = some dv → p = some pv → q = some qv →
        dv ≠ 0 → pv ≠ 0 → 0 < qv → (recordSale s d p q).1 = .insufficientStock) := by
  have key : (recordSale s d p q).2 = s
      ∧ ((recordSale s d p q).1 = .invalidInput ∨ (recordSale s d p q).1 = .insufficientStock)
      ∧ (∀ dv pv qv : Int, d = some dv → p = some pv → q = some qv →
          dv ≠ 0 → pv ≠ 0 → 0 < qv → (recordSale s d p q).1 = .insufficientStock) := by
    by_cases hv : ∃ dv pv qv : Int, d = some dv ∧ p = some pv ∧ q = some qv
          ∧ dv ≠ 0 ∧ pv ≠ 0 ∧ 0 < qv
    · obtain ⟨dv, pv, qv, rfl, rfl, rfl, hd, hp, hq⟩ := hv
      rw [recordSale_valid s dv pv qv hd hp hq] at h ⊢
      cases hf : s.distributor_stock.find? (isStockOf dv pv) with
      | none => simp
      | some stock =>
        simp only [hf] at h ⊢
        by_cases hlt : stock.qty < qv
        · simp [hlt]
        · simp [hlt] at h
    · rw [recordSale_invalid s d p q hv]
      refine ⟨rfl, Or.inl rfl, ?_⟩
      rintro dv pv qv rfl rfl rfl hd hp hq
      exact absurd ⟨dv, pv, qv, rfl, rfl, rfl, hd, hp, hq⟩ hv
  exact ⟨key.1, by rw [key.1], by rw [key.1], key.2.1, key.2.2⟩

/-- C7 at the scenario of the specification: with 10 units held,
RecordSale(5, 9, 15) is rejected with InsufficientStock, the stock remains 10
and no sale is recorded. -/
theorem recordSale_rejected_witness :
    (recordSale (sampleStoreWithStock 10) (some 5) (some 9) (some 15)).1 = .insufficientStock
    ∧ (recordSale (sampleStoreWithStock 10) (some 5) (some 9) (some 15)).2 =
        sampleStoreWithStock 10
    ∧ distributorQty (recordSale (sampleStoreWithStock 10) (some 5) (some 9) (some 15)).2 5 9
        = some 10
    ∧ (recordSale (sampleStoreWithStock 10) (some 5) (some 9) (some 15)).2.sales = [] :=
  ⟨(recordSale_rejected (sampleStoreWithStock 10) (some 5) (some 9) (some 15)
      (by decide)).2.2.2.2 5 9 15 rfl rfl rfl (by decide) (by decide) (by decide),
   (recordSale_rejected (sampleStoreWithStock 10) (some 5) (some 9) (some 15) (by decide)).1,
   by decide, by decide⟩

/-! ## C8: status history -/

/-- What SetOrderStatus leaves in `order_status` and `order_status_history`
once the order is found, whether or not the activity log step goes through. -/
theorem setOrderStatus_tables (s : Store) (orderId : Int) (status : String)
    (row : OrderStatusRow) (hrow : findOrderStatus s orderId = some row) :
    (setOrderStatus s orderId status).2.order_status =
        s.order_status.map (fun r =>
          if r.order_id == orderId then { r with status := status } else r)
    ∧ (setOrderStatus s orderId status).2.order_status_history =
        s.order_status_history ++
          [⟨orderId, row.warehouse_id, row.distributor_name, row.product_name,
            row.quantity, status⟩]
    ∧ (setOrderStatus s orderId status).2.incoming_orders = s.incoming_orders := by
  unfold setOrderStatus
  simp only [hrow]
  split <;> (split <;> (try split) <;> simp)

/-- C8 (as stated, refuted): on the sample store Dispatch(1) succeeds and
moves the order from Pending to Shipped, and ConfirmDelivery(1) then succeeds
and moves it to Delivered, yet neither appends an entry to
`order_status_history`. -/
theorem dispatch_confirm_append_no_history :
    (dispatch (sampleStore 10 10 .Pending) (some 1)).1 = .ok
    ∧ findOrder (sampleStore 10 10 .Pending) 1 = some ⟨1, 5, 2, 9, 10, .Pending⟩
    ∧ findOrder (dispatch (sampleStore 10 10 .Pending) (some 1)).2 1
        = some ⟨1, 5, 2, 9, 10, .Shipped⟩
    ∧ (¬ ∃ e : HistoryRow, (dispatch (sampleStore 10 10 .Pending) (some 1)).2.order_status_history
          = (sampleStore 10 10 .Pending).order_status_history ++ [e])
    ∧ (confirmDelivery (sampleStore 10 10 .Shipped) (some 1)).1 = .ok
    ∧ findOrder (confirmDelivery (sampleStore 10 10 .Shipped) (some 1)).2 1
        = some ⟨1, 5, 2, 9, 10, .Delivered⟩
    ∧ (¬ ∃ e : HistoryRow,
          (confirmDelivery (sampleStore 10 10 .Shipped) (some 1)).2.order_status_history
          = (sampleStore 10 10 .Shipped).order_status_history ++ [e]) := by
  refine ⟨by decide, by decide, by decide, ?_, by decide, by decide, ?_⟩
  · rintro ⟨e, he⟩
    have h1 : (dispatch (sampleStore 10 10 .Pending) (some 1)).2.order_status_history = [] := by
      decide
    rw [h1] at he
    simp [sampleStore] at he
  · rintro ⟨e, he⟩
    have h1 : (confirmDelivery (sampleStore 10 10 .Shipped) (some 1)).2.order_status_history
        = [] := by decide
    rw [h1] at he
    simp [sampleStore] at he

/-- C8 (amended): on every store, every successful
SetOrderStatus(orderId, status) appends exactly one entry to
`order_status_history`, whose order id and status are `orderId` and `status`,
the status the `order_status` row of that order now holds; and every Dispatch
and every ConfirmDelivery, whatever their answer, leave `order_status_history`
as it was. -/
theorem setOrderStatus_appends_history (s : Store) :
    (∀ (orderId : Int) (status : String), (setOrderStatus s orderId status).1 = .ok →
      ∃ e : HistoryRow,
        (setOrderStatus s orderId status).2.order_status_history =
          s.order_status_history ++ [e]
        ∧ e.order_id = orderId ∧ e.status = status
        ∧ ∃ r, findOrderStatus (setOrderStatus s orderId status).2 orderId = some r
            ∧ r.order_id = e.order_id ∧ r.status = e.status)
    ∧ (∀ o : Option Int, (dispatch s o).2.order_status_history = s.order_status_history)
    ∧ (∀ o : Option Int,
        (confirmDelivery s o).2.order_status_history = s.order_status_history) := by
  refine ⟨?_, ?_, ?_⟩
  · intro orderId status hok
    cases hrow : findOrderStatus s orderId with
    | none => simp [setOrderStatus, hrow] at hok
    | some row =>
      obtain ⟨hos, hhist, -⟩ := setOrderStatus_tables s orderId status row hrow
      refine ⟨_, hhist, rfl, rfl, { row with status := status }, ?_, ?_, rfl⟩
      · unfold findOrderStatus at hrow ⊢
        rw [hos, find?_map_of_pred_eq]
        · have hid := List.find?_some hrow
          simp only [hrow, Option.map_some']
          simp only [beq_iff_eq] at hid
          simp [hid]
        · intro x
          split <;> simp_all
      · have hid := List.find?_some hrow
        simpa using hid
  · intro o
    rcases o with _ | oid
    · simp [dispatch, falsy]
    · by_cases h0 : oid = 0
      · subst h0; simp [dispatch, falsy]
      · cases ho : findOrder s oid with
        | none => simp [dispatch, falsy, h0, ho]
        | some ord => exact (dispatch_tables s oid ord h0 ho).2.2.2.1
  · intro o
    rcases o with _ | oid
    · simp [confirmDelivery, falsy]
    · by_cases h0 : oid = 0
      · subst h0; simp [confirmDelivery, falsy]
      · rw [confirmDelivery_store s oid h0]

/-- C8 (amended) on the sample store: SetOrderStatus(1, "Shipped") succeeds
and appends one history entry for order 1 with status "Shipped"; the
successful Dispatch(1) leaves the history as it was; and so does the
successful ConfirmDelivery(1) on a store that holds no `order_status` row at
all. -/
theorem setOrderStatus_appends_history_witness :
    (∃ e : HistoryRow,
        (setOrderStatus (sampleStore 10 10 .Pending) 1 "Shipped").2.order_status_history =
          (sampleStore 10 10 .Pending).order_status_history ++ [e]
        ∧ e.order_id = 1 ∧ e.status = "Shipped"
        ∧ ∃ r, findOrderStatus (setOrderStatus (sampleStore 10 10 .Pending) 1 "Shipped").2 1
              = some r
            ∧ r.order_id = e.order_id ∧ r.status = e.status)
    ∧ (dispatch (sampleStore 10 10 .Pending) (some 1)).1 = .ok
    ∧ (dispatch (sampleStore 10 10 .Pending) (some 1)).2.order_status_history
        = (sampleStore 10 10 .Pending).order_status_history
    ∧ (confirmDelivery sampleStoreNoOrderStatus (some 1)).1 = .ok
    ∧ (confirmDelivery sampleStoreNoOrderStatus (some 1)).2.order_status_history
        = sampleStoreNoOrderStatus.order_status_history :=
  ⟨(setOrderStatus_appends_history (sampleStore 10 10 .Pending)).1 1 "Shipped" (by decide),
   by decide,
   (setOrderStatus_appends_history (sampleStore 10 10 .Pending)).2.1 (some 1),
   by decide,
   (setOrderStatus_appends_history sampleStoreNoOrderStatus).2.2 (some 1)⟩

/-! ## C9: direction of the status changes -/

/-- AddStock does not touch `incoming_orders`. -/
theorem addStock_incoming_orders (s : Store) (w : Option Int) (k : Option String)
    (q : Option Int) : (addStock s w k q).2.incoming_orders = s.incoming_orders := by
  unfold addStock
  split
  · rfl
  · split
    · split
      · rfl
      · split <;> (dsimp only; split <;> rfl)
    · rfl

/-- PlaceOrder keeps the rows of `incoming_orders` and may add one at the end. -/
theorem placeOrder_incoming_orders (s : Store) (d w p q : Option Int) :
    ∃ l, (placeOrder s d w p q).2.incoming_orders = s.incoming_orders ++ l := by
  unfold placeOrder
  split
  · exact ⟨[], by simp⟩
  · split
    · split
      · exact ⟨_, rfl⟩
      · exact ⟨[], by simp⟩
    · exact ⟨[], by simp⟩

/-- One command, seen from the order stored at position `i`: the row stays at
its position with its id, a status other than Pending stays other than
Pending, and unless the command is a Dispatch the status does not move
backwards. -/
theorem exec_order_status (s : Store) (c : Cmd) (i : Nat) (o : Order)
    (h : s.incoming_orders[i]? = some o) :
    ∃ o', (exec s c).2.incoming_orders[i]? = some o' ∧ o'.id = o.id
      ∧ (o.status ≠ .Pending → o'.status ≠ .Pending)
      ∧ ((∀ x, c ≠ .dispatch x) → o.status.rank ≤ o'.status.rank) := by
  cases c with
  | addStock w k q =>
    refine ⟨o, ?_, rfl, id, fun _ => le_rfl⟩
    simp only [exec, addStock_incoming_orders, h]
  | placeOrder d w p q =>
    obtain ⟨l, hl⟩ := placeOrder_incoming_orders s d w p q
    refine ⟨o, ?_, rfl, id, fun _ => le_rfl⟩
    simp only [exec, hl]
    rw [List.getElem?_append_left (by
      rcases Nat.lt_or_ge i s.incoming_orders.length with hlt | hge
      · exact hlt
      · rw [List.getElem?_eq_none hge] at h; cases h)]
    exact h
  | dispatch x =>
    rcases x with _ | oid
    · exact ⟨o, by simpa [exec, dispatch, falsy] using h, rfl, id, fun _ => le_rfl⟩
    · by_cases h0 : oid = 0
      · subst h0
        exact ⟨o, by simpa [exec, dispatch, falsy] using h, rfl, id, fun _ => le_rfl⟩
      · cases ho : findOrder s oid with
        | none =>
          exact ⟨o, by simpa [exec, dispatch, falsy, h0, ho] using h, rfl, id,
            fun _ => le_rfl⟩
        | some ord =>
          refine ⟨if o.id == oid then { o with status := .Shipped } else o, ?_, ?_, ?_, ?_⟩
          · simp only [exec, (dispatch_tables s oid ord h0 ho).2.1, List.getElem?_map, h,
              Option.map_some']
          · split <;> rfl
          · intro hne
            split
            · simp
            · exact hne
          · intro hc
            exact absurd rfl (hc (some oid))
  | confirmDelivery x =>
    rcases x with _ | oid
    · exact ⟨o, by simpa [exec, confirmDelivery, falsy] using h, rfl, id, fun _ => le_rfl⟩
    · by_cases h0 : oid = 0
      · subst h0
        exact ⟨o, by simpa [exec, confirmDelivery, falsy] using h, rfl, id, fun _ => le_rfl⟩
      · refine ⟨if o.id == oid && o.status == .Shipped then { o with status := .Delivered }
          else o, ?_, ?_, ?_, ?_⟩
        · simp only [exec, confirmDelivery_store s oid h0, List.getElem?_map, h,
            Option.map_some']
        · split <;> rfl
        · intro hne
          split
          · simp
          · exact hne
        · intro _
          split
          · rename_i hp
            simp only [Bool.and_eq_true, beq_iff_eq] at hp
            simp [hp.2, Status.rank]
          · exact le_rfl

/-- C9 (as stated, refuted): Dispatch(1) on the sample store whose order 1 is
Delivered succeeds and moves that order from Delivered back to Shipped. -/
theorem dispatch_moves_delivered_back_to_shipped :
    (Cmd.dispatch (some 1)).isOrderCmd = true
    ∧ (exec (sampleStore 10 10 .Delivered) (.dispatch (some 1))).1 = .ok
    ∧ findOrder (sampleStore 10 10 .Delivered) 1 = some ⟨1, 5, 2, 9, 10, .Delivered⟩
    ∧ findOrder (run (sampleStore 10 10 .Delivered) [.dispatch (some 1)]) 1
        = some ⟨1, 5, 2, 9, 10, .Shipped⟩ := by
  refine ⟨by decide, by decide, by decide, by decide⟩

/-- Dispatch of the order stored at position `i`, asked for by its id, leaves
that row Shipped whatever its status was. -/
theorem dispatch_sets_shipped (s : Store) (i : Nat) (o : Order)
    (h : s.incoming_orders[i]? = some o) (h0 : o.id ≠ 0) :
    (dispatch s (some o.id)).2.incoming_orders[i]? = some { o with status := .Shipped } := by
  cases ho : findOrder s o.id with
  | none =>
    simp only [findOrder, List.find?_eq_none] at ho
    exact absurd (by simp) (ho o (List.getElem?_mem h))
  | some ord =>
    simp [(dispatch_tables s o.id ord h0 ho).2.1, List.getElem?_map, h]

/-- C9 (amended): along every sequence of PlaceOrder, Dispatch and
ConfirmDelivery commands, the order stored at a position stays there with its
id; once Shipped or Delivered it is never Pending again; when the sequence
holds no Dispatch its status never moves backwards at all; and a
Dispatch of that order (its id not zero) sets it to Shipped whatever its
status, Delivered included. -/
theorem run_order_status (cs : List Cmd) :
    ∀ (s : Store) (i : Nat) (o : Order), (∀ c ∈ cs, c.isOrderCmd = true) →
      s.incoming_orders[i]? = some o →
      (∃ o', (run s cs).incoming_orders[i]? = some o' ∧ o'.id = o.id
        ∧ (o.status ≠ .Pending → o'.status ≠ .Pending)
        ∧ ((∀ c ∈ cs, ∀ x, c ≠ .dispatch x) → o.status.rank ≤ o'.status.rank))
      ∧ (o.id ≠ 0 → (exec s (.dispatch (some o.id))).2.incoming_orders[i]? =
            some { o with status := .Shipped }) := by
  induction cs with
  | nil =>
    intro s i o _ h
    exact ⟨⟨o, h, rfl, id, fun _ => le_rfl⟩, dispatch_sets_shipped s i o h⟩
  | cons c cs ih =>
    intro s i o hc h
    obtain ⟨o1, h1, hid1, hp1, hr1⟩ := exec_order_status s c i o h
    obtain ⟨⟨o2, h2, hid2, hp2, hr2⟩, -⟩ :=
      ih (exec s c).2 i o1 (fun c' hc' => hc c' (List.mem_cons_of_mem _ hc')) h1
    refine ⟨⟨o2, h2, hid2.trans hid1, fun hne => hp2 (hp1 hne), fun hnd => ?_⟩,
      dispatch_sets_shipped s i o h⟩
    exact le_trans (hr1 (hnd c (List.mem_cons_self _ _)))
      (hr2 (fun c' hc' => hnd c' (List.mem_cons_of_mem _ hc')))

/-- C9 (amended) on the sample store: after PlaceOrder, ConfirmDelivery(1) and
Dispatch(1), the order 1, Shipped at first, is still at position 0 with id 1
and is not Pending; and Dispatch(1) leaves it Shipped. -/
theorem run_order_status_witness :
    (∃ o', (run (sampleStore 10 10 .Shipped)
          [.placeOrder (some 5) (some 2) (some 9) (some 3), .confirmDelivery (some 1),
            .dispatch (some 1)]).incoming_orders[0]? = some o'
      ∧ o'.id = 1
      ∧ (Status.Shipped ≠ .Pending → o'.status ≠ .Pending)
      ∧ ((∀ c ∈ [Cmd.placeOrder (some 5) (some 2) (some 9) (some 3),
            .confirmDelivery (some 1), .dispatch (some 1)], ∀ x, c ≠ .dispatch x) →
          Status.Shipped.rank ≤ o'.status.rank))
    ∧ ((1 : Int) ≠ 0 → (exec (sampleStore 10 10 .Shipped)
          (.dispatch (some 1))).2.incoming_orders[0]? = some ⟨1, 5, 2, 9, 10, .Shipped⟩) :=
  run_order_status _ (sampleStore 10 10 .Shipped) 0 ⟨1, 5, 2, 9, 10, .Shipped⟩
    (by decide) (by decide)

/-! ## C10: PlaceOrder -/

/-- A safe integer is read by `JSON.parse` as itself. -/
theorem toDouble_of_isSafeInteger (n : Int) (h : isSafeInteger n) : toDouble n = some n := by
  unfold isSafeInteger at h
  unfold toDouble roundToDouble
  rw [if_pos h]
  show some (if n < 0 then -(n.natAbs : Int) else (n.natAbs : Int)) = some n
  congr 1
  split
  · rename_i hn
    rw [Int.ofNat_natAbs_of_nonpos (le_of_lt hn), neg_neg]
  · rename_i hn
    exact Int.natAbs_of_nonneg (not_lt.1 hn)

/-- PlaceOrder on fields that pass the guard: the answer and the store are
decided by the doubles the four numbers are read as. -/
theorem placeOrder_valid (s : Store) (d w p q : Int) (hd : d ≠ 0) (hw : w ≠ 0)
    (hp : p ≠ 0) (hq : 0 < q) :
    placeOrder s (some d) (some w) (some p) (some q) =
      match toDouble d, toDouble w, toDouble p, toDouble q with
      | some d', some w', some p', some q' =>
        (.ok, { s with
          incoming_orders := s.incoming_orders ++ [⟨s.nextOrderId, d', w', p', q', .Pending⟩]
          nextOrderId := s.nextOrderId + 1 })
      | _, _, _, _ => (.serverError, s) := by
  have hq0 : q ≠ 0 := by omega
  have hq1 : ¬ q ≤ 0 := by omega
  simp [placeOrder, falsy, leZero, hd, hw, hp, hq0, hq1]

/-- PlaceOrder answers InvalidInput, and changes nothing, when a field is
missing or zero or the quantity is negative. -/
theorem placeOrder_invalid (s : Store) (d w p q : Option Int)
    (h : ¬ ∃ dv wv pv qv : Int, d = some dv ∧ w = some wv ∧ p = some pv ∧ q = some qv
          ∧ dv ≠ 0 ∧ wv ≠ 0 ∧ pv ≠ 0 ∧ 0 < qv) :
    placeOrder s d w p q = (.invalidInput, s) := by
  rcases d with _ | dv <;> rcases w with _ | wv <;> rcases p with _ | pv <;>
    rcases q with _ | qv <;>
    first
      | (simp [placeOrder, falsy, leZero]; done)
      | skip
  by_cases hg : (falsy (some dv) || falsy (some wv) || falsy (some pv) || falsy (some qv)
      || leZero (some qv)) = true
  · rw [placeOrder, if_pos hg]
  · exfalso
    apply h
    simp only [falsy, leZero, Bool.or_eq_true, beq_iff_eq, decide_eq_true_eq, not_or,
      not_le] at hg
    exact ⟨dv, wv, pv, qv, rfl, rfl, rfl, rfl, hg.1.1.1.1, hg.1.1.1.2, hg.1.1.2, hg.2⟩

/-- C10 (as stated, refuted): PlaceOrder(0, 2, 9, 4) carries all three ids
and a positive quantity, and is rejected with InvalidInput all the same: the
guard `!distributor_id` takes the id 0 for a missing one. And
PlaceOrder(5, 2, 9, 9007199254740993) succeeds but the order it inserts
carries the quantity 9007199254740992, the double the handler holds, not
the given quantity. -/
theorem placeOrder_zero_id_rejected :
    ¬ ((placeOrder (sampleStore 10 10 .Pending) (some 0) (some 2) (some 9) (some 4)).1
          = .invalidInput ↔
        ((4 : Int) ≤ 0 ∨ (some 0 : Option Int) = none ∨ (some 2 : Option Int) = none
          ∨ (some 9 : Option Int) = none ∨ (some 4 : Option Int) = none))
    ∧ (placeOrder (sampleStore 10 10 .Pending) (some 5) (some 2) (some 9)
          (some 9007199254740993)).1 = .ok
    ∧ (placeOrder (sampleStore 10 10 .Pending) (some 5) (some 2) (some 9)
          (some 9007199254740993)).2.incoming_orders
        = (sampleStore 10 10 .Pending).incoming_orders
            ++ [⟨2, 5, 2, 9, 9007199254740992, .Pending⟩]
    ∧ (placeOrder (sampleStore 10 10 .Pending) (some 5) (some 2) (some 9)
          (some 9007199254740993)).2.incoming_orders
        ≠ (sampleStore 10 10 .Pending).incoming_orders
            ++ [⟨2, 5, 2, 9, 9007199254740993, .Pending⟩] := by
  refine ⟨by decide, by decide, by decide, by decide⟩

/-- C10 (amended): PlaceOrder is rejected with InvalidInput, the store
unchanged, exactly when one of the three ids or the quantity is missing or
zero, or the quantity is negative. Otherwise `warehouse_inventory` and
`distributor_stock` are left as they were, and: when the four numbers are read
as finite doubles the command succeeds and appends exactly one order, with the
next id and status Pending, carrying those doubles; in particular, when the
four numbers are safe integers, the appended order carries the given ids and
quantity themselves; when one of the numbers is read as an infinity the
command fails with the server error and the store is unchanged. Neither its
answer nor the orders it leaves depend on what the two stock tables hold. -/
theorem placeOrder_guard (s : Store) (d w p q : Option Int) :
    ((placeOrder s d w p q).1 = .invalidInput ↔
        (d = none ∨ d = some 0 ∨ w = none ∨ w = some 0 ∨ p = none ∨ p = some 0
          ∨ q = none ∨ ∃ n : Int, q = some n ∧ n ≤ 0))
    ∧ ((placeOrder s d w p q).1 = .invalidInput → (placeOrder s d w p q).2 = s)
    ∧ ((placeOrder s d w p q).1 ≠ .invalidInput →
        ∃ dv wv pv qv : Int, d = some dv ∧ w = some wv ∧ p = some pv ∧ q = some qv
          ∧ (placeOrder s d w p q).2.warehouse_inventory = s.warehouse_inventory
          ∧ (placeOrder s d w p q).2.distributor_stock = s.distributor_stock
          ∧ (∀ d' w' p' q' : Int, toDouble dv = some d' → toDouble wv = some w' →
              toDouble pv = some p' → toDouble qv = some q' →
              (placeOrder s d w p q).1 = .ok
              ∧ (placeOrder s d w p q).2.incoming_orders =
                  s.incoming_orders ++ [⟨s.nextOrderId, d', w', p', q', .Pending⟩])
          ∧ (isSafeInteger dv → isSafeInteger wv → isSafeInteger pv → isSafeInteger qv →
              (placeOrder s d w p q).1 = .ok
              ∧ (placeOrder s d w p q).2.incoming_orders =
                  s.incoming_orders ++ [⟨s.nextOrderId, dv, wv, pv, qv, .Pending⟩])
          ∧ ((toDouble dv = none ∨ toDouble wv = none ∨ toDouble pv = none
                ∨ toDouble qv = none) →
              placeOrder s d w p q = (.serverError, s)))
    ∧ (∀ (inv : List InventoryRow) (stock : List StockRow),
        (placeOrder { s with warehouse_inventory := inv, distributor_stock := stock }
            d w p q).1 = (placeOrder s d w p q).1
        ∧ (placeOrder { s with warehouse_inventory := inv, distributor_stock := stock }
            d w p q).2.incoming_orders = (placeOrder s d w p q).2.incoming_orders) := by
  by_cases hv : ∃ dv wv pv qv : Int, d = some dv ∧ w = some wv ∧ p = some pv ∧ q = some qv
        ∧ dv ≠ 0 ∧ wv ≠ 0 ∧ pv ≠ 0 ∧ 0 < qv
  · obtain ⟨dv, wv, pv, qv, rfl, rfl, rfl, rfl, hd, hw, hp, hq⟩ := hv
    have hfin : ∀ (t : Store) (d' w' p' q' : Int), toDouble dv = some d' →
        toDouble wv = some w' → toDouble pv = some p' → toDouble qv = some q' →
        placeOrder t (some dv) (some wv) (some pv) (some qv) =
          (.ok, { t with
            incoming_orders := t.incoming_orders ++ [⟨t.nextOrderId, d', w', p', q', .Pending⟩]
            nextOrderId := t.nextOrderId + 1 }) := by
      intro t d' w' p' q' h1 h2 h3 h4
      rw [placeOrder_valid t dv wv pv qv hd hw hp hq, h1, h2, h3, h4]
    have hinf : ∀ t : Store, (toDouble dv = none ∨ toDouble wv = none ∨ toDouble pv = none
        ∨ toDouble qv = none) →
        placeOrder t (some dv) (some wv) (some pv) (some qv) = (.serverError, t) := by
      intro t h
      rw [placeOrder_valid t dv wv pv qv hd hw hp hq]
      split
      · rename_i h1 h2 h3 h4
        rcases h with h | h | h | h
        · rw [h] at h1; cases h1
        · rw [h] at h2; cases h2
        · rw [h] at h3; cases h3
        · rw [h] at h4; cases h4
      · rfl
    have hcases : (∃ d' w' p' q' : Int, toDouble dv = some d' ∧ toDouble wv = some w'
          ∧ toDouble pv = some p' ∧ toDouble qv = some q')
        ∨ (toDouble dv = none ∨ toDouble wv = none ∨ toDouble pv = none
          ∨ toDouble qv = none) := by
      cases h1 : toDouble dv <;> cases h2 : toDouble wv <;> cases h3 : toDouble pv <;>
        cases h4 : toDouble qv <;> simp
    have hne : (placeOrder s (some dv) (some wv) (some pv) (some qv)).1 ≠ .invalidInput := by
      rcases hcases with ⟨d', w', p', q', h1, h2, h3, h4⟩ | h
      · rw [hfin s d' w' p' q' h1 h2 h3 h4]; simp
      · rw [hinf s h]; simp
    refine ⟨?_, fun h => absurd h hne, fun _ => ?_, ?_⟩
    · constructor
      · intro h; exact absurd h hne
      · intro h
        exfalso
        simp only [reduceCtorEq, Option.some.injEq, false_or] at h
        rcases h with h | h | h | ⟨n, hn, hle⟩
        · exact hd h
        · exact hw h
        · exact hp h
        · omega
    · refine ⟨dv, wv, pv, qv, rfl, rfl, rfl, rfl, ?_, ?_, ?_, ?_, hinf s⟩
      · rcases hcases with ⟨d', w', p', q', h1, h2, h3, h4⟩ | h
        · rw [hfin s d' w' p' q' h1 h2 h3 h4]
        · rw [hinf s h]
      · rcases hcases with ⟨d', w', p', q', h1, h2, h3, h4⟩ | h
        · rw [hfin s d' w' p' q' h1 h2 h3 h4]
        · rw [hinf s h]
      · intro d' w' p' q' h1 h2 h3 h4
        rw [hfin s d' w' p' q' h1 h2 h3 h4]
        exact ⟨rfl, rfl⟩
      · intro h1 h2 h3 h4
        rw [hfin s dv wv pv qv (toDouble_of_isSafeInteger dv h1)
          (toDouble_of_isSafeInteger wv h2) (toDouble_of_isSafeInteger pv h3)
          (toDouble_of_isSafeInteger qv h4)]
        exact ⟨rfl, rfl⟩
    · intro inv stock
      rcases hcases with ⟨d', w', p', q', h1, h2, h3, h4⟩ | h
      · rw [hfin s d' w' p' q' h1 h2 h3 h4, hfin _ d' w' p' q' h1 h2 h3 h4]
        exact ⟨rfl, rfl⟩
      · rw [hinf s h, hinf _ h]
        exact ⟨rfl, rfl⟩
  · have hs := placeOrder_invalid s d w p q hv
    refine ⟨?_, fun _ => by rw [hs], fun h => absurd (by rw [hs]) h, ?_⟩
    · constructor
      · intro _
        by_contra hcon
        apply hv
        rcases d with _ | dv
        · exact absurd (Or.inl rfl) hcon
        rcases w with _ | wv
        · exact absurd (Or.inr (Or.inr (Or.inl rfl))) hcon
        rcases p with _ | pv
        · exact absurd (Or.inr (Or.inr (Or.inr (Or.inr (Or.inl rfl))))) hcon
        rcases q with _ | qv
        · exact absurd (Or.inr (Or.inr (Or.inr (Or.inr (Or.inr (Or.inr (Or.inl rfl))))))) hcon
        refine ⟨dv, wv, pv, qv, rfl, rfl, rfl, rfl, ?_, ?_, ?_, ?_⟩
        · rintro rfl; exact hcon (Or.inr (Or.inl rfl))
        · rintro rfl; exact hcon (Or.inr (Or.inr (Or.inr (Or.inl rfl))))
        · rintro rfl
          exact hcon (Or.inr (Or.inr (Or.inr (Or.inr (Or.inr (Or.inl rfl))))))
        · by_contra hle
          exact hcon (Or.inr (Or.inr (Or.inr (Or.inr (Or.inr (Or.inr (Or.inr
            ⟨qv, rfl, not_lt.1 hle⟩)))))))
      · intro _; rw [hs]
    · intro inv stock
      rw [hs, placeOrder_invalid _ d w p q hv]
      exact ⟨rfl, rfl⟩

/-- C10 (amended) on the sample store: PlaceOrder(5, 2, 9, 4), four safe
integers, is not rejected and appends the Pending order (5, 2, 9, 4) under the
next id, 2; PlaceOrder(0, 2, 9, 4) is rejected with InvalidInput. -/
theorem placeOrder_guard_witness :
    ((placeOrder (sampleStore 10 10 .Pending) (some 5) (some 2) (some 9) (some 4)).1 = .ok
      ∧ (placeOrder (sampleStore 10 10 .Pending) (some 5) (some 2) (some 9)
            (some 4)).2.incoming_orders =
          (sampleStore 10 10 .Pending).incoming_orders
            ++ [⟨(sampleStore 10 10 .Pending).nextOrderId, 5, 2, 9, 4, .Pending⟩])
    ∧ (placeOrder (sampleStore 10 10 .Pending) (some 0) (some 2) (some 9) (some 4)).1
        = .invalidInput :=
  ⟨by
      obtain ⟨dv, wv, pv, qv, hd, hw, hp, hq, -, -, -, hsafe, -⟩ :=
        (placeOrder_guard (sampleStore 10 10 .Pending) (some 5) (some 2) (some 9)
          (some 4)).2.2.1 (by decide)
      cases hd; cases hw; cases hp; cases hq
      exact hsafe (by decide) (by decide) (by decide) (by decide),
   (placeOrder_guard (sampleStore 10 10 .Pending) (some 0) (some 2) (some 9) (some 4)).1.2
      (Or.inr (Or.inl rfl))⟩

/-! ## C11: what AddStock rejects -/

/-- C11 (defect of the code): AddStock(2, "RG1", -5) and AddStock(2, "RG1", 0)
on the sample store are not answered InvalidInput: the guard only tests
`isNaN(qty)`, both requests succeed, and the first one changes the inventory
entry of (2, 9) from 3 to -2. -/
theorem addStock_accepts_nonpositive_quantity :
    (addStock (sampleStore 3 10 .Pending) (some 2) (some "RG1") (some (-5))).1 = .ok
    ∧ (addStock (sampleStore 3 10 .Pending) (some 2) (some "RG1") (some (-5))).1
        ≠ .invalidInput
    ∧ warehouseQty (sampleStore 3 10 .Pending) 2 9 = some 3
    ∧ warehouseQty
        (addStock (sampleStore 3 10 .Pending) (some 2) (some "RG1") (some (-5))).2 2 9
        = some (-2)
    ∧ (addStock (sampleStore 3 10 .Pending) (some 2) (some "RG1") (some 0)).1 = .ok
    ∧ (addStock (sampleStore 3 10 .Pending) (some 2) (some "RG1") (some 0)).1
        ≠ .invalidInput := by
  refine ⟨by decide, by decide, by decide, by decide, by decide, by decide⟩

/-- The part of C11 that the code keeps: an AddStock answered InvalidInput or
NotFound leaves the store unchanged; it is answered NotFound whenever the
warehouse id and the sku are given, the quantity is a number and no product
has that sku; and InvalidInput whenever the quantity is missing. -/
theorem addStock_rejections (s : Store) (w : Option Int) (k : Option String)
    (q : Option Int) :
    ((addStock s w k q).1 = .invalidInput ∨ (addStock s w k q).1 = .notFound →
        (addStock s w k q).2 = s)
    ∧ (falsy w = false → falsyText k = false → q ≠ none →
        (∀ key, k = some key → s.products.find? (fun p => p.sku == key) = none) →
        addStock s w k q = (.notFound, s))
    ∧ (q = none → addStock s w k q = (.invalidInput, s)) := by
  refine ⟨?_, ?_, ?_⟩
  · unfold addStock
    split
    · intro _; rfl
    · split
      · split
        · intro _; rfl
        · dsimp only
          split <;> simp
      · intro _; rfl
  · intro hw hk hq hnone
    rcases w with _ | w
    · simp [falsy] at hw
    rcases k with _ | key
    · simp [falsyText] at hk
    rcases q with _ | n
    · exact absurd rfl hq
    simp only [addStock, hw, hk, isNaN, Bool.or_self, Bool.false_eq_true, if_false,
      hnone key rfl]
  · rintro rfl
    simp [addStock, isNaN]

/-! ## C12: the admin status update -/

/-- The quantity found for a pair after `creditDistributorStock`: the quantity
found before, or 0 when there was no row, plus the credit. -/
theorem creditDistributorStock_qty (rows : List StockRow) (d p n : Int) :
    ((creditDistributorStock rows d p n).find? (isStockOf d p)).map (·.qty) =
      some (((rows.find? (isStockOf d p)).map (·.qty)).getD 0 + n) := by
  unfold creditDistributorStock
  cases hf : rows.find? (isStockOf d p) with
  | none =>
    have hany : ¬ rows.any (isStockOf d p) = true := by
      simp only [List.any_eq_true, not_exists, not_and]
      exact fun x hx => (List.find?_eq_none.1 hf) x hx
    rw [if_neg hany]
    simp [List.find?_append, hf, isStockOf]
  | some r =>
    have hr := List.find?_some hf
    have hany : rows.any (isStockOf d p) = true := by
      simp only [List.any_eq_true]
      exact ⟨r, List.mem_of_find?_eq_some hf, hr⟩
    rw [if_pos hany, find?_map_of_pred_eq]
    · simp [hf, hr]
    · intro x
      split <;> simp_all [isStockOf]

/-- What SetOrderStatus leaves in `distributor_stock`, `distributors` and
`products` once the order is found. -/
theorem setOrderStatus_stock (s : Store) (orderId : Int) (status : String)
    (row : OrderStatusRow) (hrow : findOrderStatus s orderId = some row) :
    (setOrderStatus s orderId status).2.distributor_stock =
        (if status = "Delivered" then
          match s.distributors.find? (fun d => d.email == row.distributor_name),
                s.products.find? (fun p => p.name == row.product_name) with
          | some dist, some prod =>
            creditDistributorStock s.distributor_stock dist.id prod.id row.quantity
          | _, _ => s.distributor_stock
        else s.distributor_stock)
    ∧ (setOrderStatus s orderId status).2.distributors = s.distributors
    ∧ (setOrderStatus s orderId status).2.products = s.products := by
  unfold setOrderStatus
  simp only [hrow]
  by_cases hd : status = "Delivered"
  · subst hd
    cases hdist : s.distributors.find? (fun d => d.email == row.distributor_name) <;>
      cases hprod : s.products.find? (fun p => p.name == row.product_name) <;>
      (simp only [beq_self_eq_true, if_true, hdist, hprod]; split <;> simp)
  · have hb : (status == "Delivered") = false := by simpa using hd
    simp only [hb, Bool.false_eq_true, if_false, hd]
    split <;> simp

/-- After SetOrderStatus the `order_status` row found for the order is the one
found before, with the new status. -/
theorem setOrderStatus_find (s : Store) (orderId : Int) (status : String)
    (row : OrderStatusRow) (hrow : findOrderStatus s orderId = some row) :
    findOrderStatus (setOrderStatus s orderId status).2 orderId =
      some { row with status := status } := by
  obtain ⟨hos, -⟩ := setOrderStatus_tables s orderId status row hrow
  unfold findOrderStatus at hrow ⊢
  rw [hos, find?_map_of_pred_eq]
  · have hid := List.find?_some hrow
    simp only [hrow, Option.map_some']
    simp only [beq_iff_eq] at hid
    simp [hid]
  · intro x
    split <;> simp_all

/-- The quantity held for the order's (distributor, product) pair after `k + 1`
SetOrderStatus requests with status "Delivered". -/
theorem setOrderStatusMany_delivered (orderId : Int) (dist : Distributor) (prod : Product)
    (k : Nat) :
    ∀ (s : Store) (row : OrderStatusRow), findOrderStatus s orderId = some row →
      s.distributors.find? (fun d => d.email == row.distributor_name) = some dist →
      s.products.find? (fun p => p.name == row.product_name) = some prod →
      distributorQty (setOrderStatusMany s orderId "Delivered" (k + 1)) dist.id prod.id =
        some ((distributorQty s dist.id prod.id).getD 0 + ((k : Int) + 1) * row.quantity) := by
  induction k with
  | zero =>
    intro s row hrow hdist hprod
    obtain ⟨hst, -⟩ := setOrderStatus_stock s orderId "Delivered" row hrow
    simp only [setOrderStatusMany, distributorQty, hst, if_true, hdist, hprod,
      creditDistributorStock_qty]
    simp
  | succ k ih =>
    intro s row hrow hdist hprod
    obtain ⟨hst, hds, hps⟩ := setOrderStatus_stock s orderId "Delivered" row hrow
    have hfind := setOrderStatus_find s orderId "Delivered" row hrow
    have hstep : distributorQty (setOrderStatus s orderId "Delivered").2 dist.id prod.id =
        some ((distributorQty s dist.id prod.id).getD 0 + row.quantity) := by
      simp only [distributorQty, hst, if_true, hdist, hprod, creditDistributorStock_qty]
    have := ih (setOrderStatus s orderId "Delivered").2 { row with status := "Delivered" }
      hfind (by rw [hds]; exact hdist) (by rw [hps]; exact hprod)
    rw [setOrderStatusMany, this, hstep]
    simp only [Option.getD_some, Option.some.injEq]
    push_cast
    ring

/-- C12 (as stated, refuted): in the sample store whose `order_status` row of
order 1 names the distributor "Asha", the e-mail address of no distributor,
SetOrderStatus(1, "Delivered") succeeds and the order is Delivered, yet no
distributor stock entry is created or increased: the table stays empty. -/
theorem setOrderStatus_delivered_without_credit :
    findOrderStatus sampleStoreUnknownDistributor 1
        = some ⟨1, 2, "Asha", "Ragi", 10, "Shipped"⟩
    ∧ (setOrderStatus sampleStoreUnknownDistributor 1 "Delivered").1 = .ok
    ∧ findOrderStatus (setOrderStatus sampleStoreUnknownDistributor 1 "Delivered").2 1
        = some ⟨1, 2, "Asha", "Ragi", 10, "Delivered"⟩
    ∧ sampleStoreUnknownDistributor.distributor_stock = []
    ∧ (setOrderStatus sampleStoreUnknownDistributor 1 "Delivered").2.distributor_stock = []
    ∧ ∀ d p : Int,
        distributorQty (setOrderStatus sampleStoreUnknownDistributor 1 "Delivered").2 d p
          ≠ some 10 := by
  refine ⟨by decide, by decide, by decide, by decide, by decide, ?_⟩
  intro d p
  have h : (setOrderStatus sampleStoreUnknownDistributor 1 "Delivered").2.distributor_stock
      = [] := by decide
  simp [distributorQty, h]

/-- C12 (amended): for every existing order (the `order_status` row found
under the id), SetOrderStatus overwrites the status with the given value,
whatever the current one. With a status other than "Delivered" the
`distributor_stock` table is unchanged, and so it is with "Delivered" when
the order's distributor name is the e-mail address of no distributor or its
product name the name of no product. With "Delivered" and both resolved, `k`
requests in a row, `k ≥ 1`, leave the pair's entry at the quantity it held
before (0 when absent, the entry being created) plus `k` times the order's
quantity. -/
theorem setOrderStatus_effect (s : Store) (orderId : Int) (status : String)
    (row : OrderStatusRow) (hrow : findOrderStatus s orderId = some row) :
    findOrderStatus (setOrderStatus s orderId status).2 orderId =
        some { row with status := status }
    ∧ (status ≠ "Delivered" →
        (setOrderStatus s orderId status).2.distributor_stock = s.distributor_stock)
    ∧ (status = "Delivered" →
        (s.distributors.find? (fun d => d.email == row.distributor_name) = none
          ∨ s.products.find? (fun p => p.name == row.product_name) = none) →
        (setOrderStatus s orderId status).2.distributor_stock = s.distributor_stock)
    ∧ (status = "Delivered" → ∀ (dist : Distributor) (prod : Product),
        s.distributors.find? (fun d => d.email == row.distributor_name) = some dist →
        s.products.find? (fun p => p.name == row.product_name) = some prod →
        ∀ k : Nat, 1 ≤ k →
          distributorQty (setOrderStatusMany s orderId status k) dist.id prod.id =
            some ((distributorQty s dist.id prod.id).getD 0 + (k : Int) * row.quantity)) := by
  obtain ⟨hst, -⟩ := setOrderStatus_stock s orderId status row hrow
  refine ⟨setOrderStatus_find s orderId status row hrow, ?_, ?_, ?_⟩
  · intro hne
    rw [hst, if_neg hne]
  · intro hd hnone
    rw [hst, if_pos hd]
    rcases hnone with h | h
    · simp [h]
    · rw [h]
      split
      · rename_i heq; cases heq
      · rfl
  · rintro rfl dist prod hdist hprod k hk
    obtain ⟨m, rfl⟩ : ∃ m, k = m + 1 := ⟨k - 1, by omega⟩
    have := setOrderStatusMany_delivered orderId dist prod m s row hrow hdist hprod
    rw [this]
    push_cast
    rfl

/-- C12 (amended) on the sample store, where distributor 5 holds nothing of
product 9: three SetOrderStatus(1, "Delivered") in a row leave 30 units, three
times the order's 10, and one SetOrderStatus(1, "Shipped") leaves the stock
table as it was. -/
theorem setOrderStatus_effect_witness :
    distributorQty (setOrderStatusMany (sampleStore 10 10 .Pending) 1 "Delivered" 3) 5 9
        = some ((distributorQty (sampleStore 10 10 .Pending) 5 9).getD 0 + (3 : Nat) * 10)
    ∧ (setOrderStatus (sampleStore 10 10 .Pending) 1 "Shipped").2.distributor_stock
        = (sampleStore 10 10 .Pending).distributor_stock
    ∧ findOrderStatus (setOrderStatus (sampleStore 10 10 .Pending) 1 "Shipped").2 1
        = some ⟨1, 2, "asha@example.org", "Ragi", 10, "Shipped"⟩ :=
  ⟨(setOrderStatus_effect (sampleStore 10 10 .Pending) 1 "Delivered"
      ⟨1, 2, "asha@example.org", "Ragi", 10, "Pending"⟩ (by decide)).2.2.2 rfl
      ⟨5, "Asha", "asha@example.org"⟩ ⟨9, "Ragi", "RG1"⟩ (by decide) (by decide) 3 (by decide),
   (setOrderStatus_effect (sampleStore 10 10 .Pending) 1 "Shipped"
      ⟨1, 2, "asha@example.org", "Ragi", 10, "Pending"⟩ (by decide)).2.1 (by decide),
   (setOrderStatus_effect (sampleStore 10 10 .Pending) 1 "Shipped"
      ⟨1, 2, "asha@example.org", "Ragi", 10, "Pending"⟩ (by decide)).1⟩

/-! ## C13: Dispatch and the activity log step -/

/-- What Dispatch has applied once the order is found, whatever the activity
log step does afterwards: the floored decrement of the order's inventory
entry and the status Shipped. -/
theorem dispatch_applied (s : Store) (oid : Int) (o : Order) (h0 : oid ≠ 0)
    (ho : findOrder s oid = some o) :
    (∀ q : Int, warehouseQty s o.warehouse_id o.product_id = some q →
        warehouseQty (dispatch s (some oid)).2 o.warehouse_id o.product_id
          = some (max (q - o.qty) 0))
    ∧ findOrder (dispatch s (some oid)).2 oid = some { o with status := .Shipped } := by
  obtain ⟨hinv, hord, -⟩ := dispatch_tables s oid o h0 ho
  constructor
  · intro q hq
    unfold warehouseQty at hq ⊢
    rw [hinv, find?_map_of_pred_eq]
    · cases hf : s.warehouse_inventory.find? (isInventoryOf o.warehouse_id o.product_id) with
      | none => simp [hf] at hq
      | some r =>
        have hr := List.find?_some hf
        simp only [hf, Option.map_some', Option.some.injEq] at hq
        simp [hr, hq]
    · intro r
      split <;> simp_all [isInventoryOf]
  · unfold findOrder at ho ⊢
    rw [hord, find?_map_of_pred_eq]
    · have hid := List.find?_some ho
      simp only [ho, Option.map_some']
      simp only [beq_iff_eq] at hid
      simp [hid]
    · intro x
      split <;> simp_all

/-- The answer of Dispatch once the order is found: success when the names of
the warehouse, the distributor and the product all resolve, the 500 of the
`catch` block otherwise. -/
theorem dispatch_response (s : Store) (oid : Int) (o : Order) (h0 : oid ≠ 0)
    (ho : findOrder s oid = some o) :
    (dispatch s (some oid)).1 =
      if (findWarehouse s o.warehouse_id).isSome
          ∧ (s.distributors.find? (fun d => d.id == o.distributor_id)).isSome
          ∧ (s.products.find? (fun p => p.id == o.product_id)).isSome
      then .ok else .serverError := by
  cases hw : s.warehouses.find? (fun r => r.id == o.warehouse_id) <;>
    cases hd : s.distributors.find? (fun d => d.id == o.distributor_id) <;>
    cases hp : s.products.find? (fun p => p.id == o.product_id) <;>
    simp [dispatch, falsy, h0, ho, findWarehouse, hw, hd, hp]

/-- C13 (as stated, refuted): in the sample store without warehouses the
order 1 exists and the name of its warehouse cannot be resolved; Dispatch(1)
does not return its success acknowledgement but the server error, although
the inventory entry has gone from 3 to 0 and the order is Shipped. -/
theorem dispatch_unresolved_name_fails :
    findOrder sampleStoreNoWarehouse 1 = some ⟨1, 5, 2, 9, 10, .Pending⟩
    ∧ findWarehouse sampleStoreNoWarehouse 2 = none
    ∧ (dispatch sampleStoreNoWarehouse (some 1)).1 ≠ .ok
    ∧ (dispatch sampleStoreNoWarehouse (some 1)).1 = .serverError
    ∧ warehouseQty sampleStoreNoWarehouse 2 9 = some 3
    ∧ warehouseQty (dispatch sampleStoreNoWarehouse (some 1)).2 2 9 = some 0
    ∧ findOrder (dispatch sampleStoreNoWarehouse (some 1)).2 1
        = some ⟨1, 5, 2, 9, 10, .Shipped⟩ := by
  refine ⟨by decide, by decide, by decide, by decide, by decide, by decide, by decide⟩

/-- C13 (amended): for Dispatch on an existing order (asked for by a non-zero
id), when the name of the warehouse, of the distributor or of the product
cannot be resolved the command fails with the server error, and it returns
its success acknowledgement exactly when the three names resolve; in both
cases the floored inventory decrement and the Shipped status are applied and
stay applied. -/
theorem dispatch_log_step (s : Store) (oid : Int) (o : Order) (h0 : oid ≠ 0)
    (ho : findOrder s oid = some o) :
    ((findWarehouse s o.warehouse_id = none
        ∨ s.distributors.find? (fun d => d.id == o.distributor_id) = none
        ∨ s.products.find? (fun p => p.id == o.product_id) = none) →
      (dispatch s (some oid)).1 = .serverError)
    ∧ ((dispatch s (some oid)).1 = .ok ↔
        (findWarehouse s o.warehouse_id).isSome
        ∧ (s.distributors.find? (fun d => d.id == o.distributor_id)).isSome
        ∧ (s.products.find? (fun p => p.id == o.product_id)).isSome)
    ∧ (∀ q : Int, warehouseQty s o.warehouse_id o.product_id = some q →
        warehouseQty (dispatch s (some oid)).2 o.warehouse_id o.product_id
          = some (max (q - o.qty) 0))
    ∧ findOrder (dispatch s (some oid)).2 oid = some { o with status := .Shipped } := by
  have hr := dispatch_response s oid o h0 ho
  obtain ⟨hq, hs⟩ := dispatch_applied s oid o h0 ho
  refine ⟨?_, ?_, hq, hs⟩
  · intro hnone
    rw [hr, if_neg]
    rintro ⟨hw, hd, hp⟩
    rcases hnone with h | h | h
    · rw [h] at hw; cases hw
    · rw [h] at hd; cases hd
    · rw [h] at hp; cases hp
  · rw [hr]
    split
    · rename_i h; simpa using h
    · rename_i h
      constructor
      · intro hc; cases hc
      · intro hc; exact absurd hc h

/-- C13 (amended) on the sample store without warehouses: Dispatch(1) fails
with the server error, and the order is Shipped with its inventory entry at
0 all the same. -/
theorem dispatch_log_step_witness :
    (dispatch sampleStoreNoWarehouse (some 1)).1 = .serverError
    ∧ warehouseQty (dispatch sampleStoreNoWarehouse (some 1)).2 2 9 = some 0
    ∧ findOrder (dispatch sampleStoreNoWarehouse (some 1)).2 1
        = some ⟨1, 5, 2, 9, 10, .Shipped⟩ :=
  ⟨(dispatch_log_step sampleStoreNoWarehouse 1 ⟨1, 5, 2, 9, 10, .Pending⟩ (by decide)
      (by decide)).1 (Or.inl (by decide)),
   (dispatch_log_step sampleStoreNoWarehouse 1 ⟨1, 5, 2, 9, 10, .Pending⟩ (by decide)
      (by decide)).2.2.1 3 (by decide),
   (dispatch_log_step sampleStoreNoWarehouse 1 ⟨1, 5, 2, 9, 10, .Pending⟩ (by decide)
      (by decide)).2.2.2⟩

/-! ## C14: two RecordSale requests in flight -/

/-- The three statements of a RecordSale request, run with no other request in
between, are the handler `recordSale`. -/
theorem runSales_alone (s : Store) (d p q : Option Int) (b : SaleTask) :
    runSales s (.received d p q) b [false, false, false] =
      ((recordSale s d p q).2, .answered (recordSale s d p q).1, b) := by
  by_cases hg : (falsy d || falsy p || falsy q || leZero q) = true
  · simp only [runSales, saleStep, recordSale, if_pos hg]
  · rcases d with _ | dv
    · simp [falsy] at hg
    rcases p with _ | pv
    · simp [falsy] at hg
    rcases q with _ | qv
    · simp [falsy] at hg
    simp only [runSales, saleStep, recordSale, if_neg hg]
    cases hf : s.distributor_stock.find? (isStockOf dv pv) with
    | none => simp only [saleStep]
    | some stock =>
      by_cases hlt : stock.qty < qv
      · simp only [hlt, if_true, saleStep]
      · simp only [hlt, if_false, saleStep]

/-- C14 (defect of the code): with 10 units held, two requests
RecordSale(5, 9, 6) whose statements interleave as SELECT of the first,
SELECT of the second, INSERT and UPDATE of the first, INSERT and UPDATE of the
second: both requests pass the stock check on the same reading of 10, both
succeed although 6 + 6 exceeds 10, two sale rows are recorded and the entry
ends at -2. Served one after the other, the second is rejected. -/
theorem recordSale_interleaved_oversell :
    distributorQty (sampleStoreWithStock 10) 5 9 = some 10
    ∧ (10 : Int) < 6 + 6
    ∧ (runSales (sampleStoreWithStock 10) (.received (some 5) (some 9) (some 6))
        (.received (some 5) (some 9) (some 6))
        [false, true, false, false, true, true]).2
        = (.answered .ok, .answered .ok)
    ∧ distributorQty (runSales (sampleStoreWithStock 10)
        (.received (some 5) (some 9) (some 6)) (.received (some 5) (some 9) (some 6))
        [false, true, false, false, true, true]).1 5 9 = some (-2)
    ∧ (runSales (sampleStoreWithStock 10) (.received (some 5) (some 9) (some 6))
        (.received (some 5) (some 9) (some 6))
        [false, true, false, false, true, true]).1.sales = [⟨5, 9, 6⟩, ⟨5, 9, 6⟩]
    ∧ (runSales (sampleStoreWithStock 10) (.received (some 5) (some 9) (some 6))
        (.received (some 5) (some 9) (some 6))
        [false, false, false, true, true, true]).2
        = (.answered .ok, .answered .insufficientStock) := by
  refine ⟨by decide, by decide, by decide, by decide, by decide, by decide⟩

/-! ## C15: customer purchase at a warehouse -/

/-- C15: a purchase that succeeds has all four fields, a product of that name
and a warehouse of that id exist, the quantity is positive and the inventory
entry of (warehouse, product) holds `b`, at least the quantity; afterwards
that entry holds exactly `b` minus the quantity, which is not negative, and
exactly one row, for this purchase, is added to `customer_purchases`. A
purchase that does not succeed leaves the whole store, inventory and
purchases included, unchanged. -/
theorem purchase_effect (s : Store) (warehouseId : Option Int)
    (customerName productName : Option String) (quantity : Option Int) :
    ((purchase s warehouseId customerName productName quantity).1 = .ok →
      ∃ (w q b : Int) (customer pname : String) (product : Product) (warehouse : Warehouse),
        warehouseId = some w ∧ customerName = some customer ∧ productName = some pname
        ∧ quantity = some q
        ∧ s.products.find? (fun p => p.name == pname) = some product
        ∧ findWarehouse s w = some warehouse
        ∧ 0 < q
        ∧ warehouseQty s w product.id = some b ∧ q ≤ b
        ∧ warehouseQty (purchase s warehouseId customerName productName quantity).2
            w product.id = some (b - q)
        ∧ 0 ≤ b - q
        ∧ (purchase s warehouseId customerName productName quantity).2.customer_purchases
            = s.customer_purchases ++ [⟨warehouse.name, customer, pname, q⟩])
    ∧ ((purchase s warehouseId customerName productName quantity).1 ≠ .ok →
        (purchase s warehouseId customerName productName quantity).2 = s
        ∧ (purchase s warehouseId customerName productName quantity).2.warehouse_inventory
            = s.warehouse_inventory
        ∧ (purchase s warehouseId customerName productName quantity).2.customer_purchases
            = s.customer_purchases) := by
  have hrej : (purchase s warehouseId customerName productName quantity).1 ≠ .ok →
      (purchase s warehouseId customerName productName quantity).2 = s := by
    unfold purchase
    split
    · intro _; rfl
    · split
      · split
        · intro _; rfl
        · split
          · intro _; rfl
          · split
            · intro _; rfl
            · split
              · intro _; rfl
              · intro h; exact absurd rfl h
      · intro _; rfl
  refine ⟨?_, fun h => ⟨hrej h, by rw [hrej h], by rw [hrej h]⟩⟩
  intro hok
  rcases warehouseId with _ | w <;> rcases customerName with _ | customer <;>
    rcases productName with _ | pname <;> rcases quantity with _ | q <;>
    first
      | (exfalso; simp [purchase, falsy, falsyText, leZero] at hok; done)
      | skip
  by_cases hg : (falsy (some w) || falsyText (some customer) || falsyText (some pname)
      || falsy (some q) || leZero (some q)) = true
  · rw [purchase, if_pos hg] at hok
    cases hok
  have hq : 0 < q := by
    simp only [leZero, Bool.or_eq_true, decide_eq_true_eq, not_or, not_le] at hg
    exact hg.2
  rw [purchase, if_neg hg] at hok ⊢
  cases hp : s.products.find? (fun p => p.name == pname) with
  | none =>
    simp only [hp] at hok
    cases hok
  | some product =>
    cases hi : s.warehouse_inventory.find? (isInventoryOf w product.id) with
    | none =>
      simp only [hp, hi] at hok
      cases hok
    | some inventory =>
      by_cases hlt : inventory.qty < q
      · simp only [hp, hi, hlt, if_true] at hok
        cases hok
      cases hw : findWarehouse s w with
      | none =>
        simp only [hp, hi, hlt, if_false, hw] at hok
        cases hok
      | some warehouse =>
        have hinv := List.find?_some hi
        refine ⟨w, q, inventory.qty, customer, pname, product, warehouse, rfl, rfl, rfl, rfl,
          hp, hw, hq, by simp [warehouseQty, hi], by omega, ?_, by omega, ?_⟩
        · simp only [hp, hi, hlt, if_false, hw, warehouseQty]
          rw [find?_map_of_pred_eq]
          · simp [hi, hinv]
          · intro r
            split <;> simp_all [isInventoryOf]
        · simp only [hp, hi, hlt, if_false, hw]

/-- C15 on the sample store with 3 units in stock: the purchase of 2 units of
"Ragi" by "Bala" at warehouse 2 succeeds, leaves 1 unit and records one
purchase row; the purchase of 4 units is rejected and changes nothing. -/
theorem purchase_effect_witness :
    (∃ (w q b : Int) (customer pname : String) (product : Product) (warehouse : Warehouse),
        some (2 : Int) = some w ∧ some "Bala" = some customer ∧ some "Ragi" = some pname
        ∧ some (2 : Int) = some q
        ∧ (sampleStore 3 10 .Pending).products.find? (fun p => p.name == pname) = some product
        ∧ findWarehouse (sampleStore 3 10 .Pending) w = some warehouse
        ∧ 0 < q
        ∧ warehouseQty (sampleStore 3 10 .Pending) w product.id = some b ∧ q ≤ b
        ∧ warehouseQty (purchase (sampleStore 3 10 .Pending) (some 2) (some "Bala")
            (some "Ragi") (some 2)).2 w product.id = some (b - q)
        ∧ 0 ≤ b - q
        ∧ (purchase (sampleStore 3 10 .Pending) (some 2) (some "Bala") (some "Ragi")
            (some 2)).2.customer_purchases
            = (sampleStore 3 10 .Pending).customer_purchases
                ++ [⟨warehouse.name, customer, pname, q⟩])
    ∧ (purchase (sampleStore 3 10 .Pending) (some 2) (some "Bala") (some "Ragi")
          (some 4)).2 = sampleStore 3 10 .Pending :=
  ⟨(purchase_effect (sampleStore 3 10 .Pending) (some 2) (some "Bala") (some "Ragi")
      (some 2)).1 (by decide),
   ((purchase_effect (sampleStore 3 10 .Pending) (some 2) (some "Bala") (some "Ragi")
      (some 4)).2 (by decide)).1⟩

end Millet
